import Mathlib

/-!
# Verification of the Adobaru polygon-constrained placement engine

Shallow embedding of `src/utils/layoutEngine.ts` and `src/utils/geometry.ts`.
Coordinates are modelled as rationals (`ℚ`): the source operates on
JavaScript numbers, and every concrete scenario in the specification uses
small integer-valued inputs, for which rational arithmetic coincides with
the source's floating-point arithmetic.

The two `while` loops of `generateLayout` are embedded with explicit fuel:
each loop takes a natural-number fuel argument and returns `none` when the
fuel is exhausted before the loop condition becomes false.  The fuel check
is made *after* the loop condition, so a call whose loop condition is
already false succeeds even with zero fuel.  "The call terminates" is
expressed as "some fuel makes the result `some _`", and non-termination as
"every fuel yields `none`".
-/

namespace Adobaru

/-- `Point` from `src/services/geminiService.ts`: a pair of coordinates. -/
structure Point where
  x : ℚ
  y : ℚ
deriving DecidableEq, Repr

/-- `FurnitureSet` from `src/constants.ts`.  The optional `enabled?` flag is
modelled as `Option Bool` (`none` = the field is absent). -/
structure FurnitureSet where
  id : String
  name : String
  tableWidth : ℚ
  tableDepth : ℚ
  chairCount : ℕ
  unitPrice : ℚ
  color : String
  enabled : Option Bool
deriving DecidableEq, Repr

/-- `PlacedItem` from `src/utils/layoutEngine.ts`. -/
structure PlacedItem where
  id : String
  x : ℚ
  y : ℚ
  rotation : ℚ
  type : FurnitureSet
deriving DecidableEq, Repr

/-- `CHAIR_DIMENSIONS` from `src/constants.ts`. -/
structure ChairDims where
  width : ℚ
  depth : ℚ
deriving DecidableEq, Repr

def CHAIR_DIMENSIONS : ChairDims := ⟨500, 600⟩

/-- `FURNITURE_TYPES` from `src/constants.ts`. -/
def FURNITURE_TYPES : List FurnitureSet :=
  [⟨"type1", "タイプ1 (1800x450)", 1800, 450, 3, 50000, "#3b82f6", none⟩,
   ⟨"type2", "タイプ2 (1500x450)", 1500, 450, 2, 45000, "#10b981", none⟩,
   ⟨"type3", "タイプ3 (1200x450)", 1200, 450, 2, 40000, "#f59e0b", none⟩]

/-- `LayoutPattern` from `src/constants.ts`. -/
inductive LayoutPattern where
  | cramped
  | standard
  | spacious
deriving DecidableEq, Repr

structure PatternInfo where
  aisleGap : ℚ
  label : String
deriving DecidableEq, Repr

/-- `PATTERN_CONFIG` from `src/constants.ts`. -/
def PATTERN_CONFIG : LayoutPattern → PatternInfo
  | .cramped => ⟨1000, "窮屈"⟩
  | .standard => ⟨1300, "標準"⟩
  | .spacious => ⟨1600, "広壮"⟩

/-- The `intersect` test of one loop iteration of `isPointInPolygon`: the
edge between `vi` and `vj` straddles the point's `y` and its x-intersection
at that height lies strictly to the right of the point.  In the source the
division `(xj - xi) * (y - yi) / (yj - yi)` is only relevant when the edge
straddles the point's `y`, which forces `yj ≠ yi`; `ℚ`'s division-by-zero
convention is therefore never observable. -/
def edgeCrosses (point vi vj : Point) : Bool :=
  (decide (vi.y > point.y) != decide (vj.y > point.y))
    && decide (point.x < (vj.x - vi.x) * (point.y - vi.y) / (vj.y - vi.y) + vi.x)

/-- One iteration of the `isPointInPolygon` loop: flip `inside` when the
edge from `vv.2` (previous vertex) to `vv.1` (current vertex) is crossed. -/
def rayStep (point : Point) (inside : Bool) (vv : Point × Point) : Bool :=
  if edgeCrosses point vv.1 vv.2 then !inside else inside

/-- `isPointInPolygon` from `src/utils/layoutEngine.ts` (ray casting).
The source iterates `i` over the vertices with `j` the previous index
(`j = vs.length - 1` for `i = 0`), so each step sees the edge from the
previous vertex `vj` to the current vertex `vi`; this is the zip of the
vertex list with its cyclic predecessor list. -/
def isPointInPolygon (point : Point) (vs : List Point) : Bool :=
  let prevs : List Point :=
    match vs.getLast? with
    | none => []
    | some last => last :: vs.dropLast
  (vs.zip prevs).foldl (rayStep point) false

/-- The five sample points of `isRectValid` from `src/utils/layoutEngine.ts`:
the four corners plus the center of the axis-aligned rectangle. -/
def rectSamplePoints (x y w h : ℚ) : List Point :=
  [⟨x, y⟩, ⟨x + w, y⟩, ⟨x + w, y + h⟩, ⟨x, y + h⟩, ⟨x + w / 2, y + h / 2⟩]

/-- `isRectValid` from `src/utils/layoutEngine.ts`: every sample point must
be inside the main polygon and no sample point may be inside any hole. -/
def isRectValid (x y w h : ℚ) (polygon : List Point) (holes : List (List Point)) : Bool :=
  let corners := rectSamplePoints x y w h
  corners.all (fun p => isPointInPolygon p polygon)
    && holes.all (fun hole => !corners.any (fun p => isPointInPolygon p hole))

/-- The candidate test of the inner `for` loop of `generateLayout`:
a furniture type is chosen at the cursor when it is not disabled and its
footprint (table depth plus chair depth) is admissible there.  The source's
first-fit `for`-with-`break` over the catalog is `List.find?` with this
predicate. -/
def fitsAt (polygon : List Point) (holes : List (List Point)) (scale : ℚ)
    (currentX currentY : ℚ) (fType : FurnitureSet) : Bool :=
  decide (fType.enabled ≠ some false)
    && isRectValid currentX currentY (fType.tableWidth * scale)
        ((fType.tableDepth + CHAIR_DIMENSIONS.depth) * scale) polygon holes

/-- The inner `while (currentX < maxX)` loop of `generateLayout`, with fuel.
State: `currentX`, `rowHeight`, the accumulated `items`.  The source's
`crypto.randomUUID()` is modelled by the injected generator `idGen` applied
to the number of items already placed.  The loop condition is tested before
the fuel, so a call whose condition is already false succeeds even with
zero fuel; the recursion is written with `Nat.rec` directly so that
applications at literal fuel reduce step by step. -/
def colLoop (polygon : List Point) (holes : List (List Point)) (scale : ℚ)
    (furnitureTypes : List FurnitureSet) (idGen : ℕ → String) (maxX currentY : ℚ)
    (fuel : ℕ) : ℚ → ℚ → List PlacedItem → Option (ℚ × List PlacedItem) :=
  Nat.rec
    (fun currentX rowHeight items =>
      if currentX < maxX then none else some (rowHeight, items))
    (fun _ ih currentX rowHeight items =>
      if currentX < maxX then
        match furnitureTypes.find? (fitsAt polygon holes scale currentX currentY) with
        | some fType =>
          ih (currentX + fType.tableWidth * scale + 50 * scale)
            (max rowHeight ((fType.tableDepth + CHAIR_DIMENSIONS.depth) * scale))
            (items ++ [⟨idGen items.length, currentX, currentY, 0, fType⟩])
        | none => ih (currentX + 50 * scale) rowHeight items
      else some (rowHeight, items))
    fuel

/-- The outer `while (currentY < maxY)` loop of `generateLayout`, with its
own fuel; each row runs the column loop with the fixed budget `colFuel`. -/
def rowLoop (polygon : List Point) (holes : List (List Point)) (scale : ℚ)
    (furnitureTypes : List FurnitureSet) (idGen : ℕ → String)
    (minX maxX maxY aisleGap : ℚ) (colFuel : ℕ)
    (fuel : ℕ) : ℚ → List PlacedItem → Option (List PlacedItem) :=
  Nat.rec
    (fun currentY items => if currentY < maxY then none else some items)
    (fun _ ih currentY items =>
      if currentY < maxY then
        match colLoop polygon holes scale furnitureTypes idGen maxX currentY colFuel
            (minX + aisleGap * scale) 0 items with
        | none => none
        | some (rowHeight, items') =>
          if 0 < rowHeight then ih (currentY + rowHeight + aisleGap * scale) items'
          else ih (currentY + 100 * scale) items'
      else some items)
    fuel

/-- `generateLayout` from `src/utils/layoutEngine.ts`.  The unused `pattern`
parameter of the source (the aisle gap is already resolved by the caller) is
omitted.  For an empty polygon the source's `Math.min()`/`Math.max()` of no
arguments give `minY = +∞` and `maxY = -∞`, so the sweep condition
`minY + gap < maxY` is false and the empty list is returned; the embedding
returns `some []` directly in that case. -/
def generateLayout (polygon : List Point) (holes : List (List Point)) (scale : ℚ)
    (furnitureTypes : List FurnitureSet) (aisleGap : ℚ) (idGen : ℕ → String)
    (rowFuel colFuel : ℕ) : Option (List PlacedItem) :=
  match polygon with
  | [] => some []
  | p :: ps =>
    let minX := (ps.map Point.x).foldl min p.x
    let maxX := (ps.map Point.x).foldl max p.x
    let minY := (ps.map Point.y).foldl min p.y
    let maxY := (ps.map Point.y).foldl max p.y
    rowLoop (p :: ps) holes scale furnitureTypes idGen minX maxX maxY aisleGap colFuel
      rowFuel (minY + aisleGap * scale) []

/-! ## The rectilinear normalizer (`src/utils/geometry.ts`) -/

/-- The chain grouping of the inner loop of `snapValues`: scan the sorted
list, adding each value to the current group when it differs from the
previously scanned value by at most `tolerance`, and starting a new group
otherwise.  In the source the comparison value `prev` is
`currentGroup[currentGroup.length - 1]`, the value pushed on the previous
iteration — i.e. always the previously scanned element of the sorted list
(on a gap the new group is `[val]`, so `prev` is again the previous
element), which is how `takeChain` carries it.  `takeChain tol prev l`
returns the remainder of the group begun before `l` together with the
unconsumed rest of `l`. -/
def takeChain (tolerance prev : ℚ) : List ℚ → List ℚ × List ℚ
  | [] => ([], [])
  | val :: rest =>
    if |val - prev| ≤ tolerance then
      let next := takeChain tolerance val rest
      (val :: next.1, next.2)
    else
      ([], val :: rest)

/-- The `groups` array built by `snapValues`, as a partition of the sorted
value list into maximal chains. -/
def chainGroups (tolerance : ℚ) : List ℚ → List (List ℚ)
  | [] => []
  | v :: rest =>
    let next := takeChain tolerance v rest
    (v :: next.1) :: chainGroups tolerance next.2
termination_by l => l.length
decreasing_by
  have h : ∀ (l : List ℚ) (p : ℚ), (takeChain tolerance p l).2.length ≤ l.length := by
    intro l
    induction l with
    | nil => intro _; simp [takeChain]
    | cons a as ih =>
      intro p
      by_cases hc : |a - p| ≤ tolerance
      · simpa [takeChain, hc] using Nat.le_succ_of_le (ih a)
      · simp [takeChain, hc]
  simp only [List.length_cons]
  exact Nat.lt_succ_of_le (h _ _)

/-- The arithmetic mean used for each group (`group.reduce((a,b) => a+b) /
group.length`). -/
def groupAvg (g : List ℚ) : ℚ := g.sum / g.length

/-- The `valueMap` of `snapValues`: a `Map` built by setting, group by
group, every value of the group to the group average.  Modelled as an
association list where a later `set` shadows an earlier one (entries are
prepended and lookup takes the first match, i.e. the latest write). -/
def valueMapOf (groups : List (List ℚ)) : List (ℚ × ℚ) :=
  groups.foldl (fun m g => g.foldl (fun m' v => (v, groupAvg g) :: m') m) []

/-- `Map.get` on the association-list model. -/
def mapGet (m : List (ℚ × ℚ)) (v : ℚ) : Option ℚ :=
  (m.find? (fun e => decide (e.1 = v))).map (fun e => e.2)

/-- The final lookup `valueMap.get(v) || v` of `snapValues`.  JavaScript's
`||` falls back to `v` both when the key is missing *and* when the stored
average is `0` (zero is falsy). -/
def snapLookup (m : List (ℚ × ℚ)) (v : ℚ) : ℚ :=
  match mapGet m v with
  | none => v
  | some a => if a = 0 then v else a

/-- `snapValues` from `src/utils/geometry.ts`: sort, form chains, replace
every value by its chain's average via the value map.  The source's
JavaScript `sort((a,b) => a - b)` produces the ascending reordering of the
values, which (as a list) is exactly `List.insertionSort (· ≤ ·)`. -/
def snapValues (values : List ℚ) (tolerance : ℚ) : List ℚ :=
  let sorted := values.insertionSort (fun a b => a ≤ b)
  let groups := chainGroups tolerance sorted
  let valueMap := valueMapOf groups
  values.map (fun v => snapLookup valueMap v)

/-- `snapToRectilinear` from `src/utils/geometry.ts` (the source's default
`threshold = 20` is always passed explicitly here). -/
def snapToRectilinear (points : List Point) (threshold : ℚ) : List Point :=
  if points.length < 3 then points
  else
    let xs := points.map Point.x
    let ys := points.map Point.y
    let newXs := snapValues xs threshold
    let newYs := snapValues ys threshold
    List.zipWith (fun x y => Point.mk x y) newXs newYs

/-- The containment post-condition on one `PlacedItem`: every one of the
five sample points of its footprint rectangle (width `tableWidth·scale`,
height `(tableDepth + chair depth)·scale`) is inside the main polygon per
the ray-casting test, and none is inside any hole. -/
def itemAdmissible (polygon : List Point) (holes : List (List Point)) (scale : ℚ)
    (it : PlacedItem) : Prop :=
  ∀ c ∈ rectSamplePoints it.x it.y (it.type.tableWidth * scale)
      ((it.type.tableDepth + CHAIR_DIMENSIONS.depth) * scale),
    isPointInPolygon c polygon = true ∧ ∀ hole ∈ holes, isPointInPolygon c hole = false

/-- A positive lower bound for the row-cursor advance of `rowLoop`: the
minimum of `100·scale` (the empty-row advance) and, for every catalog entry
whose footprint height is positive, that height plus the aisle gap (the
successful-row advance). -/
def rowEps (scale aisleGap : ℚ) (types : List FurnitureSet) : ℚ :=
  types.foldr
    (fun f acc =>
      if 0 < (f.tableDepth + CHAIR_DIMENSIONS.depth) * scale then
        min ((f.tableDepth + CHAIR_DIMENSIONS.depth) * scale + aisleGap * scale) acc
      else acc)
    (100 * scale)

/-- One group's contribution to the `valueMap` of `snapValues` (the inner
`forEach`): set every value of the group to the group average. -/
def vmStep (g : List ℚ) (m : List (ℚ × ℚ)) : List (ℚ × ℚ) :=
  g.foldl (fun m' v => (v, groupAvg g) :: m') m

/-- The per-value action of `snapValues` on a sorted base list `S`. -/
def snapFn (t : ℚ) (S : List ℚ) : ℚ → ℚ :=
  fun v => snapLookup (valueMapOf (chainGroups t S)) v

/-! ## Concrete inputs used by the scenario theorems -/

/-- The third catalog entry (`1200×450`), the furniture of the spec's
concrete scenarios. -/
def type3 : FurnitureSet := ⟨"type3", "タイプ3 (1200x450)", 1200, 450, 2, 40000, "#f59e0b", none⟩

/-- The `6000×6000` square room of concrete scenario B. -/
def square6000 : List Point := [⟨0, 0⟩, ⟨6000, 0⟩, ⟨6000, 6000⟩, ⟨0, 6000⟩]

/-- A T-shaped room: a `3900×1150` band (y from 1250 to 2400) with a
`1310`-wide tower (x from 950 to 2260) rising to y = 0. -/
def tRoom : List Point :=
  [⟨950, 0⟩, ⟨2260, 0⟩, ⟨2260, 1250⟩, ⟨3900, 1250⟩, ⟨3900, 2400⟩, ⟨0, 2400⟩, ⟨0, 1250⟩, ⟨950, 1250⟩]

/-- A `3500×2700` rectangular room. -/
def box3500 : List Point := [⟨0, 0⟩, ⟨3500, 0⟩, ⟨3500, 2700⟩, ⟨0, 2700⟩]

/-- A `10×10` square room, too small for any placement cursor to start. -/
def square10 : List Point := [⟨0, 0⟩, ⟨10, 0⟩, ⟨10, 10⟩, ⟨0, 10⟩]

/-- A degenerate two-point "polygon". -/
def twoPoint : List Point := [⟨0, 0⟩, ⟨10, 10⟩]

/-- A `1000×1000` square room. -/
def square1000 : List Point := [⟨0, 0⟩, ⟨1000, 0⟩, ⟨1000, 1000⟩, ⟨0, 1000⟩]

/-- A catalog entry with a negative table width: its placement advance
`w + 50·scale` is zero at `scale = 1`. -/
def badType : FurnitureSet := ⟨"bad", "bad", -50, 100, 2, 0, "#000000", none⟩

/-- A concrete injected identifier sequence. -/
def idGen0 : ℕ → String := fun n => toString n

/-! ## Unfolding equations for the fueled loops -/

/-- One unfolding step of `colLoop` at positive fuel. -/
theorem colLoop_succ (polygon : List Point) (holes : List (List Point)) (scale : ℚ)
    (furnitureTypes : List FurnitureSet) (idGen : ℕ → String) (maxX currentY : ℚ)
    (fuel : ℕ) (currentX rowHeight : ℚ) (items : List PlacedItem) :
    colLoop polygon holes scale furnitureTypes idGen maxX currentY (fuel + 1)
        currentX rowHeight items =
      if currentX < maxX then
        match furnitureTypes.find? (fitsAt polygon holes scale currentX currentY) with
        | some fType =>
          colLoop polygon holes scale furnitureTypes idGen maxX currentY fuel
            (currentX + fType.tableWidth * scale + 50 * scale)
            (max rowHeight ((fType.tableDepth + CHAIR_DIMENSIONS.depth) * scale))
            (items ++ [⟨idGen items.length, currentX, currentY, 0, fType⟩])
        | none =>
          colLoop polygon holes scale furnitureTypes idGen maxX currentY fuel
            (currentX + 50 * scale) rowHeight items
      else some (rowHeight, items) := rfl

/-- `colLoop` at zero fuel: only an already-false loop condition succeeds. -/
theorem colLoop_zero (polygon : List Point) (holes : List (List Point)) (scale : ℚ)
    (furnitureTypes : List FurnitureSet) (idGen : ℕ → String) (maxX currentY : ℚ)
    (currentX rowHeight : ℚ) (items : List PlacedItem) :
    colLoop polygon holes scale furnitureTypes idGen maxX currentY 0
        currentX rowHeight items =
      if currentX < maxX then none else some (rowHeight, items) := rfl

/-- One unfolding step of `rowLoop` at positive fuel. -/
theorem rowLoop_succ (polygon : List Point) (holes : List (List Point)) (scale : ℚ)
    (furnitureTypes : List FurnitureSet) (idGen : ℕ → String)
    (minX maxX maxY aisleGap : ℚ) (colFuel fuel : ℕ) (currentY : ℚ)
    (items : List PlacedItem) :
    rowLoop polygon holes scale furnitureTypes idGen minX maxX maxY aisleGap colFuel
        (fuel + 1) currentY items =
      if currentY < maxY then
        match colLoop polygon holes scale furnitureTypes idGen maxX currentY colFuel
            (minX + aisleGap * scale) 0 items with
        | none => none
        | some (rowHeight, items') =>
          if 0 < rowHeight then
            rowLoop polygon holes scale furnitureTypes idGen minX maxX maxY aisleGap colFuel
              fuel (currentY + rowHeight + aisleGap * scale) items'
          else
            rowLoop polygon holes scale furnitureTypes idGen minX maxX maxY aisleGap colFuel
              fuel (currentY + 100 * scale) items'
      else some items := rfl

/-- `rowLoop` at zero fuel: only an already-false loop condition succeeds. -/
theorem rowLoop_zero (polygon : List Point) (holes : List (List Point)) (scale : ℚ)
    (furnitureTypes : List FurnitureSet) (idGen : ℕ → String)
    (minX maxX maxY aisleGap : ℚ) (colFuel : ℕ) (currentY : ℚ)
    (items : List PlacedItem) :
    rowLoop polygon holes scale furnitureTypes idGen minX maxX maxY aisleGap colFuel
        0 currentY items =
      if currentY < maxY then none else some items := rfl

/-! ## Concrete engine runs, proved step by step

Each `cstep` lemma is one iteration of the column loop at a concrete
cursor position (proved by unfolding); each `rstep` lemma chains the
column steps of one row; each `run` theorem assembles a full
`generateLayout` call.  `idGen` and the loop fuels beyond those consumed
stay symbolic. -/

theorem cstep_c2_r0_k0 (idGen : ℕ → String) (n : ℕ) (rh : ℚ) (items : List PlacedItem) :
    colLoop square6000 [] 1 [type3] idGen 6000 1300 (n+1) 1300 rh items =
    colLoop square6000 [] 1 [type3] idGen 6000 1300 n 2550 (max rh 1050)
      (items ++ [⟨idGen items.length, 1300, 1300, 0, type3⟩]) := by
  with_unfolding_all rfl

theorem cstep_c2_r0_k1 (idGen : ℕ → String) (n : ℕ) (rh : ℚ) (items : List PlacedItem) :
    colLoop square6000 [] 1 [type3] idGen 6000 1300 (n+1) 2550 rh items =
    colLoop square6000 [] 1 [type3] idGen 6000 1300 n 3800 (max rh 1050)
      (items ++ [⟨idGen items.length, 2550, 1300, 0, type3⟩]) := by
  with_unfolding_all rfl

theorem cstep_c2_r0_k2 (idGen : ℕ → String) (n : ℕ) (rh : ℚ) (items : List PlacedItem) :
    colLoop square6000 [] 1 [type3] idGen 6000 1300 (n+1) 3800 rh items =
    colLoop square6000 [] 1 [type3] idGen 6000 1300 n 5050 (max rh 1050)
      (items ++ [⟨idGen items.length, 3800, 1300, 0, type3⟩]) := by
  with_unfolding_all rfl

theorem cstep_c2_r0_k3 (idGen : ℕ → String) (n : ℕ) (rh : ℚ) (items : List PlacedItem) :
    colLoop square6000 [] 1 [type3] idGen 6000 1300 (n+1) 5050 rh items =
    colLoop square6000 [] 1 [type3] idGen 6000 1300 n 5100 rh items := by
  with_unfolding_all rfl

theorem cstep_c2_r0_k4 (idGen : ℕ → String) (n : ℕ) (rh : ℚ) (items : List PlacedItem) :
    colLoop square6000 [] 1 [type3] idGen 6000 1300 (n+1) 5100 rh items =
    colLoop square6000 [] 1 [type3] idGen 6000 1300 n 5150 rh items := by
  with_unfolding_all rfl

theorem cstep_c2_r0_k5 (idGen : ℕ → String) (n : ℕ) (rh : ℚ) (items : List PlacedItem) :
    colLoop square6000 [] 1 [type3] idGen 6000 1300 (n+1) 5150 rh items =
    colLoop square6000 [] 1 [type3] idGen 6000 1300 n 5200 rh items := by
  with_unfolding_all rfl

theorem cstep_c2_r0_k6 (idGen : ℕ → String) (n : ℕ) (rh : ℚ) (items : List PlacedItem) :
    colLoop square6000 [] 1 [type3] idGen 6000 1300 (n+1) 5200 rh items =
    colLoop square6000 [] 1 [type3] idGen 6000 1300 n 5250 rh items := by
  with_unfolding_all rfl

theorem cstep_c2_r0_k7 (idGen : ℕ → String) (n : ℕ) (rh : ℚ) (items : List PlacedItem) :
    colLoop square6000 [] 1 [type3] idGen 6000 1300 (n+1) 5250 rh items =
    colLoop square6000 [] 1 [type3] idGen 6000 1300 n 5300 rh items := by
  with_unfolding_all rfl

theorem cstep_c2_r0_k8 (idGen : ℕ → String) (n : ℕ) (rh : ℚ) (items : List PlacedItem) :
    colLoop square6000 [] 1 [type3] idGen 6000 1300 (n+1) 5300 rh items =
    colLoop square6000 [] 1 [type3] idGen 6000 1300 n 5350 rh items := by
  with_unfolding_all rfl

theorem cstep_c2_r0_k9 (idGen : ℕ → String) (n : ℕ) (rh : ℚ) (items : List PlacedItem) :
    colLoop square6000 [] 1 [type3] idGen 6000 1300 (n+1) 5350 rh items =
    colLoop square6000 [] 1 [type3] idGen 6000 1300 n 5400 rh items := by
  with_unfolding_all rfl

theorem cstep_c2_r0_k10 (idGen : ℕ → String) (n : ℕ) (rh : ℚ) (items : List PlacedItem) :
    colLoop square6000 [] 1 [type3] idGen 6000 1300 (n+1) 5400 rh items =
    colLoop square6000 [] 1 [type3] idGen 6000 1300 n 5450 rh items := by
  with_unfolding_all rfl

theorem cstep_c2_r0_k11 (idGen : ℕ → String) (n : ℕ) (rh : ℚ) (items : List PlacedItem) :
    colLoop square6000 [] 1 [type3] idGen 6000 1300 (n+1) 5450 rh items =
    colLoop square6000 [] 1 [type3] idGen 6000 1300 n 5500 rh items := by
  with_unfolding_all rfl

theorem cstep_c2_r0_k12 (idGen : ℕ → String) (n : ℕ) (rh : ℚ) (items : List PlacedItem) :
    colLoop square6000 [] 1 [type3] idGen 6000 1300 (n+1) 5500 rh items =
    colLoop square6000 [] 1 [type3] idGen 6000 1300 n 5550 rh items := by
  with_unfolding_all rfl

theorem cstep_c2_r0_k13 (idGen : ℕ → String) (n : ℕ) (rh : ℚ) (items : List PlacedItem) :
    colLoop square6000 [] 1 [type3] idGen 6000 1300 (n+1) 5550 rh items =
    colLoop square6000 [] 1 [type3] idGen 6000 1300 n 5600 rh items := by
  with_unfolding_all rfl

theorem cstep_c2_r0_k14 (idGen : ℕ → String) (n : ℕ) (rh : ℚ) (items : List PlacedItem) :
    colLoop square6000 [] 1 [type3] idGen 6000 1300 (n+1) 5600 rh items =
    colLoop square6000 [] 1 [type3] idGen 6000 1300 n 5650 rh items := by
  with_unfolding_all rfl

theorem cstep_c2_r0_k15 (idGen : ℕ → String) (n : ℕ) (rh : ℚ) (items : List PlacedItem) :
    colLoop square6000 [] 1 [type3] idGen 6000 1300 (n+1) 5650 rh items =
    colLoop square6000 [] 1 [type3] idGen 6000 1300 n 5700 rh items := by
  with_unfolding_all rfl

theorem cstep_c2_r0_k16 (idGen : ℕ → String) (n : ℕ) (rh : ℚ) (items : List PlacedItem) :
    colLoop square6000 [] 1 [type3] idGen 6000 1300 (n+1) 5700 rh items =
    colLoop square6000 [] 1 [type3] idGen 6000 1300 n 5750 rh items := by
  with_unfolding_all rfl

theorem cstep_c2_r0_k17 (idGen : ℕ → String) (n : ℕ) (rh : ℚ) (items : List PlacedItem) :
    colLoop square6000 [] 1 [type3] idGen 6000 1300 (n+1) 5750 rh items =
    colLoop square6000 [] 1 [type3] idGen 6000 1300 n 5800 rh items := by
  with_unfolding_all rfl

theorem cstep_c2_r0_k18 (idGen : ℕ → String) (n : ℕ) (rh : ℚ) (items : List PlacedItem) :
    colLoop square6000 [] 1 [type3] idGen 6000 1300 (n+1) 5800 rh items =
    colLoop square6000 [] 1 [type3] idGen 6000 1300 n 5850 rh items := by
  with_unfolding_all rfl

theorem cstep_c2_r0_k19 (idGen : ℕ → String) (n : ℕ) (rh : ℚ) (items : List PlacedItem) :
    colLoop square6000 [] 1 [type3] idGen 6000 1300 (n+1) 5850 rh items =
    colLoop square6000 [] 1 [type3] idGen 6000 1300 n 5900 rh items := by
  with_unfolding_all rfl

theorem cstep_c2_r0_k20 (idGen : ℕ → String) (n : ℕ) (rh : ℚ) (items : List PlacedItem) :
    colLoop square6000 [] 1 [type3] idGen 6000 1300 (n+1) 5900 rh items =
    colLoop square6000 [] 1 [type3] idGen 6000 1300 n 5950 rh items := by
  with_unfolding_all rfl

theorem cstep_c2_r0_k21 (idGen : ℕ → String) (n : ℕ) (rh : ℚ) (items : List PlacedItem) :
    colLoop square6000 [] 1 [type3] idGen 6000 1300 (n+1) 5950 rh items =
    colLoop square6000 [] 1 [type3] idGen 6000 1300 n 6000 rh items := by
  with_unfolding_all rfl

theorem cexit_c2_r0 (idGen : ℕ → String) (n : ℕ) (rh : ℚ) (items : List PlacedItem) :
    colLoop square6000 [] 1 [type3] idGen 6000 1300 n 6000 rh items = some (rh, items) := by
  cases n <;> with_unfolding_all rfl

theorem rstep_c2_r0 (idGen : ℕ → String) (n : ℕ) :
    rowLoop square6000 [] 1 [type3] idGen 0 6000 6000 1300 300 (n+1) 1300
      [] =
    rowLoop square6000 [] 1 [type3] idGen 0 6000 6000 1300 300 n 3650
      [⟨idGen 0, 1300, 1300, 0, type3⟩, ⟨idGen 1, 2550, 1300, 0, type3⟩, ⟨idGen 2, 3800, 1300, 0, type3⟩] := by
  rw [rowLoop_succ]
  norm_num only []
  simp only [cstep_c2_r0_k0, cstep_c2_r0_k1, cstep_c2_r0_k2, cstep_c2_r0_k3, cstep_c2_r0_k4, cstep_c2_r0_k5, cstep_c2_r0_k6, cstep_c2_r0_k7, cstep_c2_r0_k8, cstep_c2_r0_k9, cstep_c2_r0_k10, cstep_c2_r0_k11, cstep_c2_r0_k12, cstep_c2_r0_k13, cstep_c2_r0_k14, cstep_c2_r0_k15, cstep_c2_r0_k16, cstep_c2_r0_k17, cstep_c2_r0_k18, cstep_c2_r0_k19, cstep_c2_r0_k20, cstep_c2_r0_k21, cexit_c2_r0]
  with_unfolding_all rfl

theorem cstep_c2_r1_k0 (idGen : ℕ → String) (n : ℕ) (rh : ℚ) (items : List PlacedItem) :
    colLoop square6000 [] 1 [type3] idGen 6000 3650 (n+1) 1300 rh items =
    colLoop square6000 [] 1 [type3] idGen 6000 3650 n 2550 (max rh 1050)
      (items ++ [⟨idGen items.length, 1300, 3650, 0, type3⟩]) := by
  with_unfolding_all rfl

theorem cstep_c2_r1_k1 (idGen : ℕ → String) (n : ℕ) (rh : ℚ) (items : List PlacedItem) :
    colLoop square6000 [] 1 [type3] idGen 6000 3650 (n+1) 2550 rh items =
    colLoop square6000 [] 1 [type3] idGen 6000 3650 n 3800 (max rh 1050)
      (items ++ [⟨idGen items.length, 2550, 3650, 0, type3⟩]) := by
  with_unfolding_all rfl

theorem cstep_c2_r1_k2 (idGen : ℕ → String) (n : ℕ) (rh : ℚ) (items : List PlacedItem) :
    colLoop square6000 [] 1 [type3] idGen 6000 3650 (n+1) 3800 rh items =
    colLoop square6000 [] 1 [type3] idGen 6000 3650 n 5050 (max rh 1050)
      (items ++ [⟨idGen items.length, 3800, 3650, 0, type3⟩]) := by
  with_unfolding_all rfl

theorem cstep_c2_r1_k3 (idGen : ℕ → String) (n : ℕ) (rh : ℚ) (items : List PlacedItem) :
    colLoop square6000 [] 1 [type3] idGen 6000 3650 (n+1) 5050 rh items =
    colLoop square6000 [] 1 [type3] idGen 6000 3650 n 5100 rh items := by
  with_unfolding_all rfl

theorem cstep_c2_r1_k4 (idGen : ℕ → String) (n : ℕ) (rh : ℚ) (items : List PlacedItem) :
    colLoop square6000 [] 1 [type3] idGen 6000 3650 (n+1) 5100 rh items =
    colLoop square6000 [] 1 [type3] idGen 6000 3650 n 5150 rh items := by
  with_unfolding_all rfl

theorem cstep_c2_r1_k5 (idGen : ℕ → String) (n : ℕ) (rh : ℚ) (items : List PlacedItem) :
    colLoop square6000 [] 1 [type3] idGen 6000 3650 (n+1) 5150 rh items =
    colLoop square6000 [] 1 [type3] idGen 6000 3650 n 5200 rh items := by
  with_unfolding_all rfl

theorem cstep_c2_r1_k6 (idGen : ℕ → String) (n : ℕ) (rh : ℚ) (items : List PlacedItem) :
    colLoop square6000 [] 1 [type3] idGen 6000 3650 (n+1) 5200 rh items =
    colLoop square6000 [] 1 [type3] idGen 6000 3650 n 5250 rh items := by
  with_unfolding_all rfl

theorem cstep_c2_r1_k7 (idGen : ℕ → String) (n : ℕ) (rh : ℚ) (items : List PlacedItem) :
    colLoop square6000 [] 1 [type3] idGen 6000 3650 (n+1) 5250 rh items =
    colLoop square6000 [] 1 [type3] idGen 6000 3650 n 5300 rh items := by
  with_unfolding_all rfl

theorem cstep_c2_r1_k8 (idGen : ℕ → String) (n : ℕ) (rh : ℚ) (items : List PlacedItem) :
    colLoop square6000 [] 1 [type3] idGen 6000 3650 (n+1) 5300 rh items =
    colLoop square6000 [] 1 [type3] idGen 6000 3650 n 5350 rh items := by
  with_unfolding_all rfl

theorem cstep_c2_r1_k9 (idGen : ℕ → String) (n : ℕ) (rh : ℚ) (items : List PlacedItem) :
    colLoop square6000 [] 1 [type3] idGen 6000 3650 (n+1) 5350 rh items =
    colLoop square6000 [] 1 [type3] idGen 6000 3650 n 5400 rh items := by
  with_unfolding_all rfl

theorem cstep_c2_r1_k10 (idGen : ℕ → String) (n : ℕ) (rh : ℚ) (items : List PlacedItem) :
    colLoop square6000 [] 1 [type3] idGen 6000 3650 (n+1) 5400 rh items =
    colLoop square6000 [] 1 [type3] idGen 6000 3650 n 5450 rh items := by
  with_unfolding_all rfl

theorem cstep_c2_r1_k11 (idGen : ℕ → String) (n : ℕ) (rh : ℚ) (items : List PlacedItem) :
    colLoop square6000 [] 1 [type3] idGen 6000 3650 (n+1) 5450 rh items =
    colLoop square6000 [] 1 [type3] idGen 6000 3650 n 5500 rh items := by
  with_unfolding_all rfl

theorem cstep_c2_r1_k12 (idGen : ℕ → String) (n : ℕ) (rh : ℚ) (items : List PlacedItem) :
    colLoop square6000 [] 1 [type3] idGen 6000 3650 (n+1) 5500 rh items =
    colLoop square6000 [] 1 [type3] idGen 6000 3650 n 5550 rh items := by
  with_unfolding_all rfl

theorem cstep_c2_r1_k13 (idGen : ℕ → String) (n : ℕ) (rh : ℚ) (items : List PlacedItem) :
    colLoop square6000 [] 1 [type3] idGen 6000 3650 (n+1) 5550 rh items =
    colLoop square6000 [] 1 [type3] idGen 6000 3650 n 5600 rh items := by
  with_unfolding_all rfl

theorem cstep_c2_r1_k14 (idGen : ℕ → String) (n : ℕ) (rh : ℚ) (items : List PlacedItem) :
    colLoop square6000 [] 1 [type3] idGen 6000 3650 (n+1) 5600 rh items =
    colLoop square6000 [] 1 [type3] idGen 6000 3650 n 5650 rh items := by
  with_unfolding_all rfl

theorem cstep_c2_r1_k15 (idGen : ℕ → String) (n : ℕ) (rh : ℚ) (items : List PlacedItem) :
    colLoop square6000 [] 1 [type3] idGen 6000 3650 (n+1) 5650 rh items =
    colLoop square6000 [] 1 [type3] idGen 6000 3650 n 5700 rh items := by
  with_unfolding_all rfl

theorem cstep_c2_r1_k16 (idGen : ℕ → String) (n : ℕ) (rh : ℚ) (items : List PlacedItem) :
    colLoop square6000 [] 1 [type3] idGen 6000 3650 (n+1) 5700 rh items =
    colLoop square6000 [] 1 [type3] idGen 6000 3650 n 5750 rh items := by
  with_unfolding_all rfl

theorem cstep_c2_r1_k17 (idGen : ℕ → String) (n : ℕ) (rh : ℚ) (items : List PlacedItem) :
    colLoop square6000 [] 1 [type3] idGen 6000 3650 (n+1) 5750 rh items =
    colLoop square6000 [] 1 [type3] idGen 6000 3650 n 5800 rh items := by
  with_unfolding_all rfl

theorem cstep_c2_r1_k18 (idGen : ℕ → String) (n : ℕ) (rh : ℚ) (items : List PlacedItem) :
    colLoop square6000 [] 1 [type3] idGen 6000 3650 (n+1) 5800 rh items =
    colLoop square6000 [] 1 [type3] idGen 6000 3650 n 5850 rh items := by
  with_unfolding_all rfl

theorem cstep_c2_r1_k19 (idGen : ℕ → String) (n : ℕ) (rh : ℚ) (items : List PlacedItem) :
    colLoop square6000 [] 1 [type3] idGen 6000 3650 (n+1) 5850 rh items =
    colLoop square6000 [] 1 [type3] idGen 6000 3650 n 5900 rh items := by
  with_unfolding_all rfl

theorem cstep_c2_r1_k20 (idGen : ℕ → String) (n : ℕ) (rh : ℚ) (items : List PlacedItem) :
    colLoop square6000 [] 1 [type3] idGen 6000 3650 (n+1) 5900 rh items =
    colLoop square6000 [] 1 [type3] idGen 6000 3650 n 5950 rh items := by
  with_unfolding_all rfl

theorem cstep_c2_r1_k21 (idGen : ℕ → String) (n : ℕ) (rh : ℚ) (items : List PlacedItem) :
    colLoop square6000 [] 1 [type3] idGen 6000 3650 (n+1) 5950 rh items =
    colLoop square6000 [] 1 [type3] idGen 6000 3650 n 6000 rh items := by
  with_unfolding_all rfl

theorem cexit_c2_r1 (idGen : ℕ → String) (n : ℕ) (rh : ℚ) (items : List PlacedItem) :
    colLoop square6000 [] 1 [type3] idGen 6000 3650 n 6000 rh items = some (rh, items) := by
  cases n <;> with_unfolding_all rfl

theorem rstep_c2_r1 (idGen : ℕ → String) (n : ℕ) :
    rowLoop square6000 [] 1 [type3] idGen 0 6000 6000 1300 300 (n+1) 3650
      [⟨idGen 0, 1300, 1300, 0, type3⟩, ⟨idGen 1, 2550, 1300, 0, type3⟩, ⟨idGen 2, 3800, 1300, 0, type3⟩] =
    rowLoop square6000 [] 1 [type3] idGen 0 6000 6000 1300 300 n 6000
      [⟨idGen 0, 1300, 1300, 0, type3⟩, ⟨idGen 1, 2550, 1300, 0, type3⟩, ⟨idGen 2, 3800, 1300, 0, type3⟩, ⟨idGen 3, 1300, 3650, 0, type3⟩, ⟨idGen 4, 2550, 3650, 0, type3⟩, ⟨idGen 5, 3800, 3650, 0, type3⟩] := by
  rw [rowLoop_succ]
  norm_num only []
  simp only [cstep_c2_r1_k0, cstep_c2_r1_k1, cstep_c2_r1_k2, cstep_c2_r1_k3, cstep_c2_r1_k4, cstep_c2_r1_k5, cstep_c2_r1_k6, cstep_c2_r1_k7, cstep_c2_r1_k8, cstep_c2_r1_k9, cstep_c2_r1_k10, cstep_c2_r1_k11, cstep_c2_r1_k12, cstep_c2_r1_k13, cstep_c2_r1_k14, cstep_c2_r1_k15, cstep_c2_r1_k16, cstep_c2_r1_k17, cstep_c2_r1_k18, cstep_c2_r1_k19, cstep_c2_r1_k20, cstep_c2_r1_k21, cexit_c2_r1]
  with_unfolding_all rfl

theorem rexit_c2 (idGen : ℕ → String) (n : ℕ) :
    rowLoop square6000 [] 1 [type3] idGen 0 6000 6000 1300 300 n 6000
      [⟨idGen 0, 1300, 1300, 0, type3⟩, ⟨idGen 1, 2550, 1300, 0, type3⟩, ⟨idGen 2, 3800, 1300, 0, type3⟩, ⟨idGen 3, 1300, 3650, 0, type3⟩, ⟨idGen 4, 2550, 3650, 0, type3⟩, ⟨idGen 5, 3800, 3650, 0, type3⟩] =
    some [⟨idGen 0, 1300, 1300, 0, type3⟩, ⟨idGen 1, 2550, 1300, 0, type3⟩, ⟨idGen 2, 3800, 1300, 0, type3⟩, ⟨idGen 3, 1300, 3650, 0, type3⟩, ⟨idGen 4, 2550, 3650, 0, type3⟩, ⟨idGen 5, 3800, 3650, 0, type3⟩] := by
  cases n <;> with_unfolding_all rfl

theorem run_c2 (idGen : ℕ → String) :
    generateLayout square6000 [] 1 [type3] 1300 idGen 20 300 =
    some [⟨idGen 0, 1300, 1300, 0, type3⟩, ⟨idGen 1, 2550, 1300, 0, type3⟩, ⟨idGen 2, 3800, 1300, 0, type3⟩, ⟨idGen 3, 1300, 3650, 0, type3⟩, ⟨idGen 4, 2550, 3650, 0, type3⟩, ⟨idGen 5, 3800, 3650, 0, type3⟩] := by
  have h0 : generateLayout square6000 [] 1 [type3] 1300 idGen 20 300 =
      rowLoop square6000 [] 1 [type3] idGen 0 6000 6000 1300 300 20 1300 [] := by
    with_unfolding_all rfl
  rw [h0]
  simp only [rstep_c2_r0, rstep_c2_r1, rexit_c2]

theorem cstep_tcr_r0_k0 (idGen : ℕ → String) (n : ℕ) (rh : ℚ) (items : List PlacedItem) :
    colLoop tRoom [] 1 [type3] idGen 3900 1000 (n+1) 1000 rh items =
    colLoop tRoom [] 1 [type3] idGen 3900 1000 n 2250 (max rh 1050)
      (items ++ [⟨idGen items.length, 1000, 1000, 0, type3⟩]) := by
  with_unfolding_all rfl

theorem cstep_tcr_r0_k1 (idGen : ℕ → String) (n : ℕ) (rh : ℚ) (items : List PlacedItem) :
    colLoop tRoom [] 1 [type3] idGen 3900 1000 (n+1) 2250 rh items =
    colLoop tRoom [] 1 [type3] idGen 3900 1000 n 2300 rh items := by
  with_unfolding_all rfl

theorem cstep_tcr_r0_k2 (idGen : ℕ → String) (n : ℕ) (rh : ℚ) (items : List PlacedItem) :
    colLoop tRoom [] 1 [type3] idGen 3900 1000 (n+1) 2300 rh items =
    colLoop tRoom [] 1 [type3] idGen 3900 1000 n 2350 rh items := by
  with_unfolding_all rfl

theorem cstep_tcr_r0_k3 (idGen : ℕ → String) (n : ℕ) (rh : ℚ) (items : List PlacedItem) :
    colLoop tRoom [] 1 [type3] idGen 3900 1000 (n+1) 2350 rh items =
    colLoop tRoom [] 1 [type3] idGen 3900 1000 n 2400 rh items := by
  with_unfolding_all rfl

theorem cstep_tcr_r0_k4 (idGen : ℕ → String) (n : ℕ) (rh : ℚ) (items : List PlacedItem) :
    colLoop tRoom [] 1 [type3] idGen 3900 1000 (n+1) 2400 rh items =
    colLoop tRoom [] 1 [type3] idGen 3900 1000 n 2450 rh items := by
  with_unfolding_all rfl

theorem cstep_tcr_r0_k5 (idGen : ℕ → String) (n : ℕ) (rh : ℚ) (items : List PlacedItem) :
    colLoop tRoom [] 1 [type3] idGen 3900 1000 (n+1) 2450 rh items =
    colLoop tRoom [] 1 [type3] idGen 3900 1000 n 2500 rh items := by
  with_unfolding_all rfl

theorem cstep_tcr_r0_k6 (idGen : ℕ → String) (n : ℕ) (rh : ℚ) (items : List PlacedItem) :
    colLoop tRoom [] 1 [type3] idGen 3900 1000 (n+1) 2500 rh items =
    colLoop tRoom [] 1 [type3] idGen 3900 1000 n 2550 rh items := by
  with_unfolding_all rfl

theorem cstep_tcr_r0_k7 (idGen : ℕ → String) (n : ℕ) (rh : ℚ) (items : List PlacedItem) :
    colLoop tRoom [] 1 [type3] idGen 3900 1000 (n+1) 2550 rh items =
    colLoop tRoom [] 1 [type3] idGen 3900 1000 n 2600 rh items := by
  with_unfolding_all rfl

theorem cstep_tcr_r0_k8 (idGen : ℕ → String) (n : ℕ) (rh : ℚ) (items : List PlacedItem) :
    colLoop tRoom [] 1 [type3] idGen 3900 1000 (n+1) 2600 rh items =
    colLoop tRoom [] 1 [type3] idGen 3900 1000 n 2650 rh items := by
  with_unfolding_all rfl

theorem cstep_tcr_r0_k9 (idGen : ℕ → String) (n : ℕ) (rh : ℚ) (items : List PlacedItem) :
    colLoop tRoom [] 1 [type3] idGen 3900 1000 (n+1) 2650 rh items =
    colLoop tRoom [] 1 [type3] idGen 3900 1000 n 2700 rh items := by
  with_unfolding_all rfl

theorem cstep_tcr_r0_k10 (idGen : ℕ → String) (n : ℕ) (rh : ℚ) (items : List PlacedItem) :
    colLoop tRoom [] 1 [type3] idGen 3900 1000 (n+1) 2700 rh items =
    colLoop tRoom [] 1 [type3] idGen 3900 1000 n 2750 rh items := by
  with_unfolding_all rfl

theorem cstep_tcr_r0_k11 (idGen : ℕ → String) (n : ℕ) (rh : ℚ) (items : List PlacedItem) :
    colLoop tRoom [] 1 [type3] idGen 3900 1000 (n+1) 2750 rh items =
    colLoop tRoom [] 1 [type3] idGen 3900 1000 n 2800 rh items := by
  with_unfolding_all rfl

theorem cstep_tcr_r0_k12 (idGen : ℕ → String) (n : ℕ) (rh : ℚ) (items : List PlacedItem) :
    colLoop tRoom [] 1 [type3] idGen 3900 1000 (n+1) 2800 rh items =
    colLoop tRoom [] 1 [type3] idGen 3900 1000 n 2850 rh items := by
  with_unfolding_all rfl

theorem cstep_tcr_r0_k13 (idGen : ℕ → String) (n : ℕ) (rh : ℚ) (items : List PlacedItem) :
    colLoop tRoom [] 1 [type3] idGen 3900 1000 (n+1) 2850 rh items =
    colLoop tRoom [] 1 [type3] idGen 3900 1000 n 2900 rh items := by
  with_unfolding_all rfl

theorem cstep_tcr_r0_k14 (idGen : ℕ → String) (n : ℕ) (rh : ℚ) (items : List PlacedItem) :
    colLoop tRoom [] 1 [type3] idGen 3900 1000 (n+1) 2900 rh items =
    colLoop tRoom [] 1 [type3] idGen 3900 1000 n 2950 rh items := by
  with_unfolding_all rfl

theorem cstep_tcr_r0_k15 (idGen : ℕ → String) (n : ℕ) (rh : ℚ) (items : List PlacedItem) :
    colLoop tRoom [] 1 [type3] idGen 3900 1000 (n+1) 2950 rh items =
    colLoop tRoom [] 1 [type3] idGen 3900 1000 n 3000 rh items := by
  with_unfolding_all rfl

theorem cstep_tcr_r0_k16 (idGen : ℕ → String) (n : ℕ) (rh : ℚ) (items : List PlacedItem) :
    colLoop tRoom [] 1 [type3] idGen 3900 1000 (n+1) 3000 rh items =
    colLoop tRoom [] 1 [type3] idGen 3900 1000 n 3050 rh items := by
  with_unfolding_all rfl

theorem cstep_tcr_r0_k17 (idGen : ℕ → String) (n : ℕ) (rh : ℚ) (items : List PlacedItem) :
    colLoop tRoom [] 1 [type3] idGen 3900 1000 (n+1) 3050 rh items =
    colLoop tRoom [] 1 [type3] idGen 3900 1000 n 3100 rh items := by
  with_unfolding_all rfl

theorem cstep_tcr_r0_k18 (idGen : ℕ → String) (n : ℕ) (rh : ℚ) (items : List PlacedItem) :
    colLoop tRoom [] 1 [type3] idGen 3900 1000 (n+1) 3100 rh items =
    colLoop tRoom [] 1 [type3] idGen 3900 1000 n 3150 rh items := by
  with_unfolding_all rfl

theorem cstep_tcr_r0_k19 (idGen : ℕ → String) (n : ℕ) (rh : ℚ) (items : List PlacedItem) :
    colLoop tRoom [] 1 [type3] idGen 3900 1000 (n+1) 3150 rh items =
    colLoop tRoom [] 1 [type3] idGen 3900 1000 n 3200 rh items := by
  with_unfolding_all rfl

theorem cstep_tcr_r0_k20 (idGen : ℕ → String) (n : ℕ) (rh : ℚ) (items : List PlacedItem) :
    colLoop tRoom [] 1 [type3] idGen 3900 1000 (n+1) 3200 rh items =
    colLoop tRoom [] 1 [type3] idGen 3900 1000 n 3250 rh items := by
  with_unfolding_all rfl

theorem cstep_tcr_r0_k21 (idGen : ℕ → String) (n : ℕ) (rh : ℚ) (items : List PlacedItem) :
    colLoop tRoom [] 1 [type3] idGen 3900 1000 (n+1) 3250 rh items =
    colLoop tRoom [] 1 [type3] idGen 3900 1000 n 3300 rh items := by
  with_unfolding_all rfl

theorem cstep_tcr_r0_k22 (idGen : ℕ → String) (n : ℕ) (rh : ℚ) (items : List PlacedItem) :
    colLoop tRoom [] 1 [type3] idGen 3900 1000 (n+1) 3300 rh items =
    colLoop tRoom [] 1 [type3] idGen 3900 1000 n 3350 rh items := by
  with_unfolding_all rfl

theorem cstep_tcr_r0_k23 (idGen : ℕ → String) (n : ℕ) (rh : ℚ) (items : List PlacedItem) :
    colLoop tRoom [] 1 [type3] idGen 3900 1000 (n+1) 3350 rh items =
    colLoop tRoom [] 1 [type3] idGen 3900 1000 n 3400 rh items := by
  with_unfolding_all rfl

theorem cstep_tcr_r0_k24 (idGen : ℕ → String) (n : ℕ) (rh : ℚ) (items : List PlacedItem) :
    colLoop tRoom [] 1 [type3] idGen 3900 1000 (n+1) 3400 rh items =
    colLoop tRoom [] 1 [type3] idGen 3900 1000 n 3450 rh items := by
  with_unfolding_all rfl

theorem cstep_tcr_r0_k25 (idGen : ℕ → String) (n : ℕ) (rh : ℚ) (items : List PlacedItem) :
    colLoop tRoom [] 1 [type3] idGen 3900 1000 (n+1) 3450 rh items =
    colLoop tRoom [] 1 [type3] idGen 3900 1000 n 3500 rh items := by
  with_unfolding_all rfl

theorem cstep_tcr_r0_k26 (idGen : ℕ → String) (n : ℕ) (rh : ℚ) (items : List PlacedItem) :
    colLoop tRoom [] 1 [type3] idGen 3900 1000 (n+1) 3500 rh items =
    colLoop tRoom [] 1 [type3] idGen 3900 1000 n 3550 rh items := by
  with_unfolding_all rfl

theorem cstep_tcr_r0_k27 (idGen : ℕ → String) (n : ℕ) (rh : ℚ) (items : List PlacedItem) :
    colLoop tRoom [] 1 [type3] idGen 3900 1000 (n+1) 3550 rh items =
    colLoop tRoom [] 1 [type3] idGen 3900 1000 n 3600 rh items := by
  with_unfolding_all rfl

theorem cstep_tcr_r0_k28 (idGen : ℕ → String) (n : ℕ) (rh : ℚ) (items : List PlacedItem) :
    colLoop tRoom [] 1 [type3] idGen 3900 1000 (n+1) 3600 rh items =
    colLoop tRoom [] 1 [type3] idGen 3900 1000 n 3650 rh items := by
  with_unfolding_all rfl

theorem cstep_tcr_r0_k29 (idGen : ℕ → String) (n : ℕ) (rh : ℚ) (items : List PlacedItem) :
    colLoop tRoom [] 1 [type3] idGen 3900 1000 (n+1) 3650 rh items =
    colLoop tRoom [] 1 [type3] idGen 3900 1000 n 3700 rh items := by
  with_unfolding_all rfl

theorem cstep_tcr_r0_k30 (idGen : ℕ → String) (n : ℕ) (rh : ℚ) (items : List PlacedItem) :
    colLoop tRoom [] 1 [type3] idGen 3900 1000 (n+1) 3700 rh items =
    colLoop tRoom [] 1 [type3] idGen 3900 1000 n 3750 rh items := by
  with_unfolding_all rfl

theorem cstep_tcr_r0_k31 (idGen : ℕ → String) (n : ℕ) (rh : ℚ) (items : List PlacedItem) :
    colLoop tRoom [] 1 [type3] idGen 3900 1000 (n+1) 3750 rh items =
    colLoop tRoom [] 1 [type3] idGen 3900 1000 n 3800 rh items := by
  with_unfolding_all rfl

theorem cstep_tcr_r0_k32 (idGen : ℕ → String) (n : ℕ) (rh : ℚ) (items : List PlacedItem) :
    colLoop tRoom [] 1 [type3] idGen 3900 1000 (n+1) 3800 rh items =
    colLoop tRoom [] 1 [type3] idGen 3900 1000 n 3850 rh items := by
  with_unfolding_all rfl

theorem cstep_tcr_r0_k33 (idGen : ℕ → String) (n : ℕ) (rh : ℚ) (items : List PlacedItem) :
    colLoop tRoom [] 1 [type3] idGen 3900 1000 (n+1) 3850 rh items =
    colLoop tRoom [] 1 [type3] idGen 3900 1000 n 3900 rh items := by
  with_unfolding_all rfl

theorem cexit_tcr_r0 (idGen : ℕ → String) (n : ℕ) (rh : ℚ) (items : List PlacedItem) :
    colLoop tRoom [] 1 [type3] idGen 3900 1000 n 3900 rh items = some (rh, items) := by
  cases n <;> with_unfolding_all rfl

theorem rstep_tcr_r0 (idGen : ℕ → String) (n : ℕ) :
    rowLoop tRoom [] 1 [type3] idGen 0 3900 2400 1000 300 (n+1) 1000
      [] =
    rowLoop tRoom [] 1 [type3] idGen 0 3900 2400 1000 300 n 3050
      [⟨idGen 0, 1000, 1000, 0, type3⟩] := by
  rw [rowLoop_succ]
  norm_num only []
  simp only [cstep_tcr_r0_k0, cstep_tcr_r0_k1, cstep_tcr_r0_k2, cstep_tcr_r0_k3, cstep_tcr_r0_k4, cstep_tcr_r0_k5, cstep_tcr_r0_k6, cstep_tcr_r0_k7, cstep_tcr_r0_k8, cstep_tcr_r0_k9, cstep_tcr_r0_k10, cstep_tcr_r0_k11, cstep_tcr_r0_k12, cstep_tcr_r0_k13, cstep_tcr_r0_k14, cstep_tcr_r0_k15, cstep_tcr_r0_k16, cstep_tcr_r0_k17, cstep_tcr_r0_k18, cstep_tcr_r0_k19, cstep_tcr_r0_k20, cstep_tcr_r0_k21, cstep_tcr_r0_k22, cstep_tcr_r0_k23, cstep_tcr_r0_k24, cstep_tcr_r0_k25, cstep_tcr_r0_k26, cstep_tcr_r0_k27, cstep_tcr_r0_k28, cstep_tcr_r0_k29, cstep_tcr_r0_k30, cstep_tcr_r0_k31, cstep_tcr_r0_k32, cstep_tcr_r0_k33, cexit_tcr_r0]
  with_unfolding_all rfl

theorem rexit_tcr (idGen : ℕ → String) (n : ℕ) :
    rowLoop tRoom [] 1 [type3] idGen 0 3900 2400 1000 300 n 3050
      [⟨idGen 0, 1000, 1000, 0, type3⟩] =
    some [⟨idGen 0, 1000, 1000, 0, type3⟩] := by
  cases n <;> with_unfolding_all rfl

theorem run_tcr (idGen : ℕ → String) :
    generateLayout tRoom [] 1 [type3] 1000 idGen 20 300 =
    some [⟨idGen 0, 1000, 1000, 0, type3⟩] := by
  have h0 : generateLayout tRoom [] 1 [type3] 1000 idGen 20 300 =
      rowLoop tRoom [] 1 [type3] idGen 0 3900 2400 1000 300 20 1000 [] := by
    with_unfolding_all rfl
  rw [h0]
  simp only [rstep_tcr_r0, rexit_tcr]

theorem cstep_tst_r0_k0 (idGen : ℕ → String) (n : ℕ) (rh : ℚ) (items : List PlacedItem) :
    colLoop tRoom [] 1 [type3] idGen 3900 1300 (n+1) 1300 rh items =
    colLoop tRoom [] 1 [type3] idGen 3900 1300 n 2550 (max rh 1050)
      (items ++ [⟨idGen items.length, 1300, 1300, 0, type3⟩]) := by
  with_unfolding_all rfl

theorem cstep_tst_r0_k1 (idGen : ℕ → String) (n : ℕ) (rh : ℚ) (items : List PlacedItem) :
    colLoop tRoom [] 1 [type3] idGen 3900 1300 (n+1) 2550 rh items =
    colLoop tRoom [] 1 [type3] idGen 3900 1300 n 3800 (max rh 1050)
      (items ++ [⟨idGen items.length, 2550, 1300, 0, type3⟩]) := by
  with_unfolding_all rfl

theorem cstep_tst_r0_k2 (idGen : ℕ → String) (n : ℕ) (rh : ℚ) (items : List PlacedItem) :
    colLoop tRoom [] 1 [type3] idGen 3900 1300 (n+1) 3800 rh items =
    colLoop tRoom [] 1 [type3] idGen 3900 1300 n 3850 rh items := by
  with_unfolding_all rfl

theorem cstep_tst_r0_k3 (idGen : ℕ → String) (n : ℕ) (rh : ℚ) (items : List PlacedItem) :
    colLoop tRoom [] 1 [type3] idGen 3900 1300 (n+1) 3850 rh items =
    colLoop tRoom [] 1 [type3] idGen 3900 1300 n 3900 rh items := by
  with_unfolding_all rfl

theorem cexit_tst_r0 (idGen : ℕ → String) (n : ℕ) (rh : ℚ) (items : List PlacedItem) :
    colLoop tRoom [] 1 [type3] idGen 3900 1300 n 3900 rh items = some (rh, items) := by
  cases n <;> with_unfolding_all rfl

theorem rstep_tst_r0 (idGen : ℕ → String) (n : ℕ) :
    rowLoop tRoom [] 1 [type3] idGen 0 3900 2400 1300 300 (n+1) 1300
      [] =
    rowLoop tRoom [] 1 [type3] idGen 0 3900 2400 1300 300 n 3650
      [⟨idGen 0, 1300, 1300, 0, type3⟩, ⟨idGen 1, 2550, 1300, 0, type3⟩] := by
  rw [rowLoop_succ]
  norm_num only []
  simp only [cstep_tst_r0_k0, cstep_tst_r0_k1, cstep_tst_r0_k2, cstep_tst_r0_k3, cexit_tst_r0]
  with_unfolding_all rfl

theorem rexit_tst (idGen : ℕ → String) (n : ℕ) :
    rowLoop tRoom [] 1 [type3] idGen 0 3900 2400 1300 300 n 3650
      [⟨idGen 0, 1300, 1300, 0, type3⟩, ⟨idGen 1, 2550, 1300, 0, type3⟩] =
    some [⟨idGen 0, 1300, 1300, 0, type3⟩, ⟨idGen 1, 2550, 1300, 0, type3⟩] := by
  cases n <;> with_unfolding_all rfl

theorem run_tst (idGen : ℕ → String) :
    generateLayout tRoom [] 1 [type3] 1300 idGen 20 300 =
    some [⟨idGen 0, 1300, 1300, 0, type3⟩, ⟨idGen 1, 2550, 1300, 0, type3⟩] := by
  have h0 : generateLayout tRoom [] 1 [type3] 1300 idGen 20 300 =
      rowLoop tRoom [] 1 [type3] idGen 0 3900 2400 1300 300 20 1300 [] := by
    with_unfolding_all rfl
  rw [h0]
  simp only [rstep_tst_r0, rexit_tst]

theorem cstep_bcr_r0_k0 (idGen : ℕ → String) (n : ℕ) (rh : ℚ) (items : List PlacedItem) :
    colLoop box3500 [] 1 [type3] idGen 3500 1000 (n+1) 1000 rh items =
    colLoop box3500 [] 1 [type3] idGen 3500 1000 n 2250 (max rh 1050)
      (items ++ [⟨idGen items.length, 1000, 1000, 0, type3⟩]) := by
  with_unfolding_all rfl

theorem cstep_bcr_r0_k1 (idGen : ℕ → String) (n : ℕ) (rh : ℚ) (items : List PlacedItem) :
    colLoop box3500 [] 1 [type3] idGen 3500 1000 (n+1) 2250 rh items =
    colLoop box3500 [] 1 [type3] idGen 3500 1000 n 3500 (max rh 1050)
      (items ++ [⟨idGen items.length, 2250, 1000, 0, type3⟩]) := by
  with_unfolding_all rfl

theorem cexit_bcr_r0 (idGen : ℕ → String) (n : ℕ) (rh : ℚ) (items : List PlacedItem) :
    colLoop box3500 [] 1 [type3] idGen 3500 1000 n 3500 rh items = some (rh, items) := by
  cases n <;> with_unfolding_all rfl

theorem rstep_bcr_r0 (idGen : ℕ → String) (n : ℕ) :
    rowLoop box3500 [] 1 [type3] idGen 0 3500 2700 1000 300 (n+1) 1000
      [] =
    rowLoop box3500 [] 1 [type3] idGen 0 3500 2700 1000 300 n 3050
      [⟨idGen 0, 1000, 1000, 0, type3⟩, ⟨idGen 1, 2250, 1000, 0, type3⟩] := by
  rw [rowLoop_succ]
  norm_num only []
  simp only [cstep_bcr_r0_k0, cstep_bcr_r0_k1, cexit_bcr_r0]
  with_unfolding_all rfl

theorem rexit_bcr (idGen : ℕ → String) (n : ℕ) :
    rowLoop box3500 [] 1 [type3] idGen 0 3500 2700 1000 300 n 3050
      [⟨idGen 0, 1000, 1000, 0, type3⟩, ⟨idGen 1, 2250, 1000, 0, type3⟩] =
    some [⟨idGen 0, 1000, 1000, 0, type3⟩, ⟨idGen 1, 2250, 1000, 0, type3⟩] := by
  cases n <;> with_unfolding_all rfl

theorem run_bcr (idGen : ℕ → String) :
    generateLayout box3500 [] 1 [type3] 1000 idGen 20 300 =
    some [⟨idGen 0, 1000, 1000, 0, type3⟩, ⟨idGen 1, 2250, 1000, 0, type3⟩] := by
  have h0 : generateLayout box3500 [] 1 [type3] 1000 idGen 20 300 =
      rowLoop box3500 [] 1 [type3] idGen 0 3500 2700 1000 300 20 1000 [] := by
    with_unfolding_all rfl
  rw [h0]
  simp only [rstep_bcr_r0, rexit_bcr]

theorem cstep_bst_r0_k0 (idGen : ℕ → String) (n : ℕ) (rh : ℚ) (items : List PlacedItem) :
    colLoop box3500 [] 1 [type3] idGen 3500 1300 (n+1) 1300 rh items =
    colLoop box3500 [] 1 [type3] idGen 3500 1300 n 2550 (max rh 1050)
      (items ++ [⟨idGen items.length, 1300, 1300, 0, type3⟩]) := by
  with_unfolding_all rfl

theorem cstep_bst_r0_k1 (idGen : ℕ → String) (n : ℕ) (rh : ℚ) (items : List PlacedItem) :
    colLoop box3500 [] 1 [type3] idGen 3500 1300 (n+1) 2550 rh items =
    colLoop box3500 [] 1 [type3] idGen 3500 1300 n 2600 rh items := by
  with_unfolding_all rfl

theorem cstep_bst_r0_k2 (idGen : ℕ → String) (n : ℕ) (rh : ℚ) (items : List PlacedItem) :
    colLoop box3500 [] 1 [type3] idGen 3500 1300 (n+1) 2600 rh items =
    colLoop box3500 [] 1 [type3] idGen 3500 1300 n 2650 rh items := by
  with_unfolding_all rfl

theorem cstep_bst_r0_k3 (idGen : ℕ → String) (n : ℕ) (rh : ℚ) (items : List PlacedItem) :
    colLoop box3500 [] 1 [type3] idGen 3500 1300 (n+1) 2650 rh items =
    colLoop box3500 [] 1 [type3] idGen 3500 1300 n 2700 rh items := by
  with_unfolding_all rfl

theorem cstep_bst_r0_k4 (idGen : ℕ → String) (n : ℕ) (rh : ℚ) (items : List PlacedItem) :
    colLoop box3500 [] 1 [type3] idGen 3500 1300 (n+1) 2700 rh items =
    colLoop box3500 [] 1 [type3] idGen 3500 1300 n 2750 rh items := by
  with_unfolding_all rfl

theorem cstep_bst_r0_k5 (idGen : ℕ → String) (n : ℕ) (rh : ℚ) (items : List PlacedItem) :
    colLoop box3500 [] 1 [type3] idGen 3500 1300 (n+1) 2750 rh items =
    colLoop box3500 [] 1 [type3] idGen 3500 1300 n 2800 rh items := by
  with_unfolding_all rfl

theorem cstep_bst_r0_k6 (idGen : ℕ → String) (n : ℕ) (rh : ℚ) (items : List PlacedItem) :
    colLoop box3500 [] 1 [type3] idGen 3500 1300 (n+1) 2800 rh items =
    colLoop box3500 [] 1 [type3] idGen 3500 1300 n 2850 rh items := by
  with_unfolding_all rfl

theorem cstep_bst_r0_k7 (idGen : ℕ → String) (n : ℕ) (rh : ℚ) (items : List PlacedItem) :
    colLoop box3500 [] 1 [type3] idGen 3500 1300 (n+1) 2850 rh items =
    colLoop box3500 [] 1 [type3] idGen 3500 1300 n 2900 rh items := by
  with_unfolding_all rfl

theorem cstep_bst_r0_k8 (idGen : ℕ → String) (n : ℕ) (rh : ℚ) (items : List PlacedItem) :
    colLoop box3500 [] 1 [type3] idGen 3500 1300 (n+1) 2900 rh items =
    colLoop box3500 [] 1 [type3] idGen 3500 1300 n 2950 rh items := by
  with_unfolding_all rfl

theorem cstep_bst_r0_k9 (idGen : ℕ → String) (n : ℕ) (rh : ℚ) (items : List PlacedItem) :
    colLoop box3500 [] 1 [type3] idGen 3500 1300 (n+1) 2950 rh items =
    colLoop box3500 [] 1 [type3] idGen 3500 1300 n 3000 rh items := by
  with_unfolding_all rfl

theorem cstep_bst_r0_k10 (idGen : ℕ → String) (n : ℕ) (rh : ℚ) (items : List PlacedItem) :
    colLoop box3500 [] 1 [type3] idGen 3500 1300 (n+1) 3000 rh items =
    colLoop box3500 [] 1 [type3] idGen 3500 1300 n 3050 rh items := by
  with_unfolding_all rfl

theorem cstep_bst_r0_k11 (idGen : ℕ → String) (n : ℕ) (rh : ℚ) (items : List PlacedItem) :
    colLoop box3500 [] 1 [type3] idGen 3500 1300 (n+1) 3050 rh items =
    colLoop box3500 [] 1 [type3] idGen 3500 1300 n 3100 rh items := by
  with_unfolding_all rfl

theorem cstep_bst_r0_k12 (idGen : ℕ → String) (n : ℕ) (rh : ℚ) (items : List PlacedItem) :
    colLoop box3500 [] 1 [type3] idGen 3500 1300 (n+1) 3100 rh items =
    colLoop box3500 [] 1 [type3] idGen 3500 1300 n 3150 rh items := by
  with_unfolding_all rfl

theorem cstep_bst_r0_k13 (idGen : ℕ → String) (n : ℕ) (rh : ℚ) (items : List PlacedItem) :
    colLoop box3500 [] 1 [type3] idGen 3500 1300 (n+1) 3150 rh items =
    colLoop box3500 [] 1 [type3] idGen 3500 1300 n 3200 rh items := by
  with_unfolding_all rfl

theorem cstep_bst_r0_k14 (idGen : ℕ → String) (n : ℕ) (rh : ℚ) (items : List PlacedItem) :
    colLoop box3500 [] 1 [type3] idGen 3500 1300 (n+1) 3200 rh items =
    colLoop box3500 [] 1 [type3] idGen 3500 1300 n 3250 rh items := by
  with_unfolding_all rfl

theorem cstep_bst_r0_k15 (idGen : ℕ → String) (n : ℕ) (rh : ℚ) (items : List PlacedItem) :
    colLoop box3500 [] 1 [type3] idGen 3500 1300 (n+1) 3250 rh items =
    colLoop box3500 [] 1 [type3] idGen 3500 1300 n 3300 rh items := by
  with_unfolding_all rfl

theorem cstep_bst_r0_k16 (idGen : ℕ → String) (n : ℕ) (rh : ℚ) (items : List PlacedItem) :
    colLoop box3500 [] 1 [type3] idGen 3500 1300 (n+1) 3300 rh items =
    colLoop box3500 [] 1 [type3] idGen 3500 1300 n 3350 rh items := by
  with_unfolding_all rfl

theorem cstep_bst_r0_k17 (idGen : ℕ → String) (n : ℕ) (rh : ℚ) (items : List PlacedItem) :
    colLoop box3500 [] 1 [type3] idGen 3500 1300 (n+1) 3350 rh items =
    colLoop box3500 [] 1 [type3] idGen 3500 1300 n 3400 rh items := by
  with_unfolding_all rfl

theorem cstep_bst_r0_k18 (idGen : ℕ → String) (n : ℕ) (rh : ℚ) (items : List PlacedItem) :
    colLoop box3500 [] 1 [type3] idGen 3500 1300 (n+1) 3400 rh items =
    colLoop box3500 [] 1 [type3] idGen 3500 1300 n 3450 rh items := by
  with_unfolding_all rfl

theorem cstep_bst_r0_k19 (idGen : ℕ → String) (n : ℕ) (rh : ℚ) (items : List PlacedItem) :
    colLoop box3500 [] 1 [type3] idGen 3500 1300 (n+1) 3450 rh items =
    colLoop box3500 [] 1 [type3] idGen 3500 1300 n 3500 rh items := by
  with_unfolding_all rfl

theorem cexit_bst_r0 (idGen : ℕ → String) (n : ℕ) (rh : ℚ) (items : List PlacedItem) :
    colLoop box3500 [] 1 [type3] idGen 3500 1300 n 3500 rh items = some (rh, items) := by
  cases n <;> with_unfolding_all rfl

theorem rstep_bst_r0 (idGen : ℕ → String) (n : ℕ) :
    rowLoop box3500 [] 1 [type3] idGen 0 3500 2700 1300 300 (n+1) 1300
      [] =
    rowLoop box3500 [] 1 [type3] idGen 0 3500 2700 1300 300 n 3650
      [⟨idGen 0, 1300, 1300, 0, type3⟩] := by
  rw [rowLoop_succ]
  norm_num only []
  simp only [cstep_bst_r0_k0, cstep_bst_r0_k1, cstep_bst_r0_k2, cstep_bst_r0_k3, cstep_bst_r0_k4, cstep_bst_r0_k5, cstep_bst_r0_k6, cstep_bst_r0_k7, cstep_bst_r0_k8, cstep_bst_r0_k9, cstep_bst_r0_k10, cstep_bst_r0_k11, cstep_bst_r0_k12, cstep_bst_r0_k13, cstep_bst_r0_k14, cstep_bst_r0_k15, cstep_bst_r0_k16, cstep_bst_r0_k17, cstep_bst_r0_k18, cstep_bst_r0_k19, cexit_bst_r0]
  with_unfolding_all rfl

theorem rexit_bst (idGen : ℕ → String) (n : ℕ) :
    rowLoop box3500 [] 1 [type3] idGen 0 3500 2700 1300 300 n 3650
      [⟨idGen 0, 1300, 1300, 0, type3⟩] =
    some [⟨idGen 0, 1300, 1300, 0, type3⟩] := by
  cases n <;> with_unfolding_all rfl

theorem run_bst (idGen : ℕ → String) :
    generateLayout box3500 [] 1 [type3] 1300 idGen 20 300 =
    some [⟨idGen 0, 1300, 1300, 0, type3⟩] := by
  have h0 : generateLayout box3500 [] 1 [type3] 1300 idGen 20 300 =
      rowLoop box3500 [] 1 [type3] idGen 0 3500 2700 1300 300 20 1300 [] := by
    with_unfolding_all rfl
  rw [h0]
  simp only [rstep_bst_r0, rexit_bst]

theorem cstep_bsp_r0_k0 (idGen : ℕ → String) (n : ℕ) (rh : ℚ) (items : List PlacedItem) :
    colLoop box3500 [] 1 [type3] idGen 3500 1600 (n+1) 1600 rh items =
    colLoop box3500 [] 1 [type3] idGen 3500 1600 n 2850 (max rh 1050)
      (items ++ [⟨idGen items.length, 1600, 1600, 0, type3⟩]) := by
  with_unfolding_all rfl

theorem cstep_bsp_r0_k1 (idGen : ℕ → String) (n : ℕ) (rh : ℚ) (items : List PlacedItem) :
    colLoop box3500 [] 1 [type3] idGen 3500 1600 (n+1) 2850 rh items =
    colLoop box3500 [] 1 [type3] idGen 3500 1600 n 2900 rh items := by
  with_unfolding_all rfl

theorem cstep_bsp_r0_k2 (idGen : ℕ → String) (n : ℕ) (rh : ℚ) (items : List PlacedItem) :
    colLoop box3500 [] 1 [type3] idGen 3500 1600 (n+1) 2900 rh items =
    colLoop box3500 [] 1 [type3] idGen 3500 1600 n 2950 rh items := by
  with_unfolding_all rfl

theorem cstep_bsp_r0_k3 (idGen : ℕ → String) (n : ℕ) (rh : ℚ) (items : List PlacedItem) :
    colLoop box3500 [] 1 [type3] idGen 3500 1600 (n+1) 2950 rh items =
    colLoop box3500 [] 1 [type3] idGen 3500 1600 n 3000 rh items := by
  with_unfolding_all rfl

theorem cstep_bsp_r0_k4 (idGen : ℕ → String) (n : ℕ) (rh : ℚ) (items : List PlacedItem) :
    colLoop box3500 [] 1 [type3] idGen 3500 1600 (n+1) 3000 rh items =
    colLoop box3500 [] 1 [type3] idGen 3500 1600 n 3050 rh items := by
  with_unfolding_all rfl

theorem cstep_bsp_r0_k5 (idGen : ℕ → String) (n : ℕ) (rh : ℚ) (items : List PlacedItem) :
    colLoop box3500 [] 1 [type3] idGen 3500 1600 (n+1) 3050 rh items =
    colLoop box3500 [] 1 [type3] idGen 3500 1600 n 3100 rh items := by
  with_unfolding_all rfl

theorem cstep_bsp_r0_k6 (idGen : ℕ → String) (n : ℕ) (rh : ℚ) (items : List PlacedItem) :
    colLoop box3500 [] 1 [type3] idGen 3500 1600 (n+1) 3100 rh items =
    colLoop box3500 [] 1 [type3] idGen 3500 1600 n 3150 rh items := by
  with_unfolding_all rfl

theorem cstep_bsp_r0_k7 (idGen : ℕ → String) (n : ℕ) (rh : ℚ) (items : List PlacedItem) :
    colLoop box3500 [] 1 [type3] idGen 3500 1600 (n+1) 3150 rh items =
    colLoop box3500 [] 1 [type3] idGen 3500 1600 n 3200 rh items := by
  with_unfolding_all rfl

theorem cstep_bsp_r0_k8 (idGen : ℕ → String) (n : ℕ) (rh : ℚ) (items : List PlacedItem) :
    colLoop box3500 [] 1 [type3] idGen 3500 1600 (n+1) 3200 rh items =
    colLoop box3500 [] 1 [type3] idGen 3500 1600 n 3250 rh items := by
  with_unfolding_all rfl

theorem cstep_bsp_r0_k9 (idGen : ℕ → String) (n : ℕ) (rh : ℚ) (items : List PlacedItem) :
    colLoop box3500 [] 1 [type3] idGen 3500 1600 (n+1) 3250 rh items =
    colLoop box3500 [] 1 [type3] idGen 3500 1600 n 3300 rh items := by
  with_unfolding_all rfl

theorem cstep_bsp_r0_k10 (idGen : ℕ → String) (n : ℕ) (rh : ℚ) (items : List PlacedItem) :
    colLoop box3500 [] 1 [type3] idGen 3500 1600 (n+1) 3300 rh items =
    colLoop box3500 [] 1 [type3] idGen 3500 1600 n 3350 rh items := by
  with_unfolding_all rfl

theorem cstep_bsp_r0_k11 (idGen : ℕ → String) (n : ℕ) (rh : ℚ) (items : List PlacedItem) :
    colLoop box3500 [] 1 [type3] idGen 3500 1600 (n+1) 3350 rh items =
    colLoop box3500 [] 1 [type3] idGen 3500 1600 n 3400 rh items := by
  with_unfolding_all rfl

theorem cstep_bsp_r0_k12 (idGen : ℕ → String) (n : ℕ) (rh : ℚ) (items : List PlacedItem) :
    colLoop box3500 [] 1 [type3] idGen 3500 1600 (n+1) 3400 rh items =
    colLoop box3500 [] 1 [type3] idGen 3500 1600 n 3450 rh items := by
  with_unfolding_all rfl

theorem cstep_bsp_r0_k13 (idGen : ℕ → String) (n : ℕ) (rh : ℚ) (items : List PlacedItem) :
    colLoop box3500 [] 1 [type3] idGen 3500 1600 (n+1) 3450 rh items =
    colLoop box3500 [] 1 [type3] idGen 3500 1600 n 3500 rh items := by
  with_unfolding_all rfl

theorem cexit_bsp_r0 (idGen : ℕ → String) (n : ℕ) (rh : ℚ) (items : List PlacedItem) :
    colLoop box3500 [] 1 [type3] idGen 3500 1600 n 3500 rh items = some (rh, items) := by
  cases n <;> with_unfolding_all rfl

theorem rstep_bsp_r0 (idGen : ℕ → String) (n : ℕ) :
    rowLoop box3500 [] 1 [type3] idGen 0 3500 2700 1600 300 (n+1) 1600
      [] =
    rowLoop box3500 [] 1 [type3] idGen 0 3500 2700 1600 300 n 4250
      [⟨idGen 0, 1600, 1600, 0, type3⟩] := by
  rw [rowLoop_succ]
  norm_num only []
  simp only [cstep_bsp_r0_k0, cstep_bsp_r0_k1, cstep_bsp_r0_k2, cstep_bsp_r0_k3, cstep_bsp_r0_k4, cstep_bsp_r0_k5, cstep_bsp_r0_k6, cstep_bsp_r0_k7, cstep_bsp_r0_k8, cstep_bsp_r0_k9, cstep_bsp_r0_k10, cstep_bsp_r0_k11, cstep_bsp_r0_k12, cstep_bsp_r0_k13, cexit_bsp_r0]
  with_unfolding_all rfl

theorem rexit_bsp (idGen : ℕ → String) (n : ℕ) :
    rowLoop box3500 [] 1 [type3] idGen 0 3500 2700 1600 300 n 4250
      [⟨idGen 0, 1600, 1600, 0, type3⟩] =
    some [⟨idGen 0, 1600, 1600, 0, type3⟩] := by
  cases n <;> with_unfolding_all rfl

theorem run_bsp (idGen : ℕ → String) :
    generateLayout box3500 [] 1 [type3] 1600 idGen 20 300 =
    some [⟨idGen 0, 1600, 1600, 0, type3⟩] := by
  have h0 : generateLayout box3500 [] 1 [type3] 1600 idGen 20 300 =
      rowLoop box3500 [] 1 [type3] idGen 0 3500 2700 1600 300 20 1600 [] := by
    with_unfolding_all rfl
  rw [h0]
  simp only [rstep_bsp_r0, rexit_bsp]

/-! ## The ray-casting test on degenerate vertex lists -/

/-- The crossing test is symmetric in the two edge endpoints: the straddle
condition is symmetric, and when it holds the two x-intersection formulas
agree (the edge's supporting line does not depend on its orientation). -/
theorem edgeCrosses_symm (p a b : Point) : edgeCrosses p a b = edgeCrosses p b a := by
  by_cases hy : a.y = b.y
  · simp [edgeCrosses, hy]
  · have h1 : b.y - a.y ≠ 0 := sub_ne_zero.mpr (Ne.symm hy)
    have h2 : a.y - b.y ≠ 0 := sub_ne_zero.mpr hy
    have hx : (b.x - a.x) * (p.y - a.y) / (b.y - a.y) + a.x
        = (a.x - b.x) * (p.y - b.y) / (a.y - b.y) + b.x := by
      field_simp
      ring
    have hb : ∀ q r : Bool, (q != r) = (r != q) := by decide
    simp only [edgeCrosses, hx, hb]

/-- On a vertex list with fewer than three vertices the ray-casting test
always answers `false`: with no or one vertex no edge is crossed, and with
two vertices the two degenerate edges give the same crossing answer, so the
parity is even. -/
theorem isPointInPolygon_short (p : Point) (vs : List Point) (h : vs.length < 3) :
    isPointInPolygon p vs = false := by
  match vs with
  | [] => rfl
  | [a] => simp [isPointInPolygon, rayStep, edgeCrosses]
  | [a, b] =>
    show List.foldl (rayStep p) false [(a, b), (b, a)] = false
    simp only [List.foldl]
    simp only [rayStep, edgeCrosses_symm p b a]
    cases hC : edgeCrosses p a b <;> simp [hC]
  | a :: b :: c :: rest =>
    simp only [List.length_cons] at h
    omega

/-! ## The containment invariant of the placement engine -/

/-- Unpacking `isRectValid = true` into the per-sample-point conditions. -/
theorem isRectValid_samples (x y w h : ℚ) (polygon : List Point)
    (holes : List (List Point)) (hv : isRectValid x y w h polygon holes = true) :
    ∀ c ∈ rectSamplePoints x y w h,
      isPointInPolygon c polygon = true ∧ ∀ hole ∈ holes, isPointInPolygon c hole = false := by
  unfold isRectValid at hv
  rw [Bool.and_eq_true] at hv
  obtain ⟨h1, h2⟩ := hv
  rw [List.all_eq_true] at h1
  rw [List.all_eq_true] at h2
  intro c hc
  refine ⟨h1 c hc, ?_⟩
  intro hole hh
  have h3 := h2 hole hh
  rw [Bool.not_eq_eq_eq_not, Bool.not_true, List.any_eq_false] at h3
  exact Bool.not_eq_true _ ▸ h3 c hc

/-- A furniture type accepted by the candidate test yields an admissible
placed item at the cursor position. -/
theorem itemAdmissible_of_fitsAt (polygon : List Point) (holes : List (List Point))
    (scale x y : ℚ) (f : FurnitureSet) (s : String)
    (hf : fitsAt polygon holes scale x y f = true) :
    itemAdmissible polygon holes scale ⟨s, x, y, 0, f⟩ := by
  unfold fitsAt at hf
  rw [Bool.and_eq_true] at hf
  exact isRectValid_samples _ _ _ _ _ _ hf.2

/-- Column-loop invariant: every item in a successful result was either
already in the accumulator or is admissible. -/
theorem colLoop_mem_of_some (polygon : List Point) (holes : List (List Point)) (scale : ℚ)
    (furnitureTypes : List FurnitureSet) (idGen : ℕ → String) (maxX currentY : ℚ) :
    ∀ (fuel : ℕ) (currentX rowHeight : ℚ) (items : List PlacedItem) (rh' : ℚ)
      (items' : List PlacedItem),
      colLoop polygon holes scale furnitureTypes idGen maxX currentY fuel
          currentX rowHeight items = some (rh', items') →
      ∀ it ∈ items', it ∈ items ∨ itemAdmissible polygon holes scale it := by
  intro fuel
  induction fuel with
  | zero =>
    intro currentX rowHeight items rh' items' h it hit
    rw [colLoop_zero] at h
    split at h
    · exact absurd h (by simp)
    · simp only [Option.some.injEq, Prod.mk.injEq] at h
      exact Or.inl (h.2 ▸ hit)
  | succ n ih =>
    intro currentX rowHeight items rh' items' h it hit
    rw [colLoop_succ] at h
    split at h
    · split at h
      next fType hfind =>
        rcases ih _ _ _ _ _ h it hit with hmem | hadm
        · rcases List.mem_append.mp hmem with h1 | h2
          · exact Or.inl h1
          · right
            have hnew : it = ⟨idGen items.length, currentX, currentY, 0, fType⟩ := by
              simpa using h2
            have hp := List.find?_some hfind
            exact hnew ▸ itemAdmissible_of_fitsAt _ _ _ _ _ _ _ hp
        · exact Or.inr hadm
      next hfind =>
        exact ih _ _ _ _ _ h it hit
    · simp only [Option.some.injEq, Prod.mk.injEq] at h
      exact Or.inl (h.2 ▸ hit)

/-- Row-loop invariant: every item in a successful result was either
already in the accumulator or is admissible. -/
theorem rowLoop_mem_of_some (polygon : List Point) (holes : List (List Point)) (scale : ℚ)
    (furnitureTypes : List FurnitureSet) (idGen : ℕ → String)
    (minX maxX maxY aisleGap : ℚ) (colFuel : ℕ) :
    ∀ (fuel : ℕ) (currentY : ℚ) (items items' : List PlacedItem),
      rowLoop polygon holes scale furnitureTypes idGen minX maxX maxY aisleGap colFuel
          fuel currentY items = some items' →
      ∀ it ∈ items', it ∈ items ∨ itemAdmissible polygon holes scale it := by
  intro fuel
  induction fuel with
  | zero =>
    intro currentY items items' h it hit
    rw [rowLoop_zero] at h
    split at h
    · exact absurd h (by simp)
    · rw [Option.some_inj] at h
      exact Or.inl (h ▸ hit)
  | succ n ih =>
    intro currentY items items' h it hit
    rw [rowLoop_succ] at h
    split at h
    · split at h
      next => exact absurd h (by simp)
      next rowHeight items₁ hcol =>
        have step : ∀ it₁ ∈ items₁, it₁ ∈ items ∨ itemAdmissible polygon holes scale it₁ :=
          colLoop_mem_of_some _ _ _ _ _ _ _ _ _ _ _ _ _ hcol
        split at h
        all_goals
          rcases ih _ _ _ h it hit with hmem | hadm
        · exact step it hmem
        · exact Or.inr hadm
        · exact step it hmem
        · exact Or.inr hadm
    · rw [Option.some_inj] at h
      exact Or.inl (h ▸ hit)

/-- Engine invariant: every item returned by `generateLayout` is
admissible (the accumulator starts empty). -/
theorem generateLayout_mem_admissible (polygon : List Point) (holes : List (List Point))
    (scale : ℚ) (furnitureTypes : List FurnitureSet) (aisleGap : ℚ) (idGen : ℕ → String)
    (rowFuel colFuel : ℕ) (items : List PlacedItem)
    (h : generateLayout polygon holes scale furnitureTypes aisleGap idGen rowFuel colFuel
        = some items) :
    ∀ it ∈ items, itemAdmissible polygon holes scale it := by
  intro it hit
  match polygon with
  | [] =>
    rw [show generateLayout [] holes scale furnitureTypes aisleGap idGen rowFuel colFuel
        = some [] from rfl, Option.some_inj] at h
    exact absurd (h ▸ hit) (List.not_mem_nil it)
  | p :: ps =>
    have h' : rowLoop (p :: ps) holes scale furnitureTypes idGen
        ((ps.map Point.x).foldl min p.x) ((ps.map Point.x).foldl max p.x)
        ((ps.map Point.y).foldl max p.y) aisleGap colFuel rowFuel
        (((ps.map Point.y).foldl min p.y) + aisleGap * scale) [] = some items := h
    rcases rowLoop_mem_of_some _ _ _ _ _ _ _ _ _ _ _ _ _ _ h' it hit with hmem | hadm
    · exact absurd hmem (List.not_mem_nil it)
    · exact hadm

/-! ## Fuel monotonicity: a successful run is unchanged by extra fuel -/

theorem colLoop_mono (polygon : List Point) (holes : List (List Point)) (scale : ℚ)
    (furnitureTypes : List FurnitureSet) (idGen : ℕ → String) (maxX currentY : ℚ) :
    ∀ (fuel fuel' : ℕ), fuel ≤ fuel' →
      ∀ (currentX rowHeight : ℚ) (items : List PlacedItem) (r : ℚ × List PlacedItem),
        colLoop polygon holes scale furnitureTypes idGen maxX currentY fuel
            currentX rowHeight items = some r →
        colLoop polygon holes scale furnitureTypes idGen maxX currentY fuel'
            currentX rowHeight items = some r := by
  intro fuel
  induction fuel with
  | zero =>
    intro fuel' _ currentX rowHeight items r h
    rw [colLoop_zero] at h
    split at h
    next => exact absurd h (by simp)
    next hc =>
      cases fuel' with
      | zero => rw [colLoop_zero, if_neg hc]; exact h
      | succ m => rw [colLoop_succ, if_neg hc]; exact h
  | succ n ih =>
    intro fuel' hle currentX rowHeight items r h
    cases fuel' with
    | zero => exact absurd hle (by omega)
    | succ m =>
      rw [colLoop_succ] at h
      rw [colLoop_succ]
      split at h
      next hc =>
        rw [if_pos hc]
        split at h
        next => exact ih m (by omega) _ _ _ _ h
        next => exact ih m (by omega) _ _ _ _ h
      next hc => rw [if_neg hc]; exact h

theorem rowLoop_mono (polygon : List Point) (holes : List (List Point)) (scale : ℚ)
    (furnitureTypes : List FurnitureSet) (idGen : ℕ → String)
    (minX maxX maxY aisleGap : ℚ) :
    ∀ (fuel fuel' colFuel colFuel' : ℕ), fuel ≤ fuel' → colFuel ≤ colFuel' →
      ∀ (currentY : ℚ) (items l : List PlacedItem),
        rowLoop polygon holes scale furnitureTypes idGen minX maxX maxY aisleGap colFuel
            fuel currentY items = some l →
        rowLoop polygon holes scale furnitureTypes idGen minX maxX maxY aisleGap colFuel'
            fuel' currentY items = some l := by
  intro fuel
  induction fuel with
  | zero =>
    intro fuel' colFuel colFuel' _ _ currentY items l h
    rw [rowLoop_zero] at h
    split at h
    next => exact absurd h (by simp)
    next hc =>
      cases fuel' with
      | zero => rw [rowLoop_zero, if_neg hc]; exact h
      | succ m => rw [rowLoop_succ, if_neg hc]; exact h
  | succ n ih =>
    intro fuel' colFuel colFuel' hle hcle currentY items l h
    cases fuel' with
    | zero => exact absurd hle (by omega)
    | succ m =>
      rw [rowLoop_succ] at h
      rw [rowLoop_succ]
      split at h
      next hc =>
        rw [if_pos hc]
        split at h
        next => exact absurd h (by simp)
        next rowHeight items₁ hcol =>
          have hcol' := colLoop_mono polygon holes scale furnitureTypes idGen maxX currentY
            colFuel colFuel' hcle _ _ _ _ hcol
          simp only [hcol']
          split at h
          next hrh => rw [if_pos hrh]; exact ih m _ _ (by omega) hcle _ _ _ h
          next hrh => rw [if_neg hrh]; exact ih m _ _ (by omega) hcle _ _ _ h
      next hc => rw [if_neg hc]; exact h

/-- Two successful runs of `generateLayout` on the same inputs agree, no
matter what fuel budgets made them complete. -/
theorem generateLayout_deterministic (polygon : List Point) (holes : List (List Point))
    (scale : ℚ) (furnitureTypes : List FurnitureSet) (aisleGap : ℚ) (idGen : ℕ → String)
    (rowFuel colFuel rowFuel' colFuel' : ℕ) (l l' : List PlacedItem)
    (h : generateLayout polygon holes scale furnitureTypes aisleGap idGen rowFuel colFuel
        = some l)
    (h' : generateLayout polygon holes scale furnitureTypes aisleGap idGen rowFuel' colFuel'
        = some l') : l = l' := by
  match polygon with
  | [] =>
    rw [show generateLayout [] holes scale furnitureTypes aisleGap idGen rowFuel colFuel
        = some [] from rfl, Option.some_inj] at h
    rw [show generateLayout [] holes scale furnitureTypes aisleGap idGen rowFuel' colFuel'
        = some [] from rfl, Option.some_inj] at h'
    rw [← h, ← h']
  | p :: ps =>
    have g : ∀ (rf cf : ℕ) (l₀ : List PlacedItem),
        generateLayout (p :: ps) holes scale furnitureTypes aisleGap idGen rf cf = some l₀ →
        rowLoop (p :: ps) holes scale furnitureTypes idGen
          ((ps.map Point.x).foldl min p.x) ((ps.map Point.x).foldl max p.x)
          ((ps.map Point.y).foldl max p.y) aisleGap cf rf
          (((ps.map Point.y).foldl min p.y) + aisleGap * scale) [] = some l₀ :=
      fun _ _ _ hgen => hgen
    have h₁ := rowLoop_mono _ _ _ _ _ _ _ _ _ rowFuel (max rowFuel rowFuel') colFuel
      (max colFuel colFuel') (le_max_left _ _) (le_max_left _ _) _ _ _ (g _ _ _ h)
    have h₂ := rowLoop_mono _ _ _ _ _ _ _ _ _ rowFuel' (max rowFuel rowFuel') colFuel'
      (max colFuel colFuel') (le_max_right _ _) (le_max_right _ _) _ _ _ (g _ _ _ h')
    rw [h₁] at h₂
    exact Option.some_inj.mp h₂

/-! ## Non-terminating sweeps: stuck cursor states

When the cursor advance of a loop is zero, the loop state repeats and no
amount of fuel completes the sweep: the fueled loop returns `none` for
every fuel. -/

/-- At `scale = 0` on `square10` every advance is `0·50 = 0` and the item
`1200×450` "fits" at the degenerate origin rectangle, so the column loop
re-places it at `x = 0` forever. -/
theorem colLoop_stuck_scale0 (idGen : ℕ → String) :
    ∀ (n : ℕ) (rh : ℚ) (items : List PlacedItem),
      colLoop square10 [] 0 [type3] idGen 10 0 n 0 rh items = none := by
  intro n
  induction n with
  | zero =>
    intro rh items
    rw [colLoop_zero, if_pos (by norm_num)]
  | succ m ih =>
    intro rh items
    rw [colLoop_succ, if_pos (by norm_num)]
    simp only [show List.find? (fitsAt square10 [] 0 0 0) [type3] = some type3 from by
      with_unfolding_all rfl]
    with_unfolding_all exact ih _ _

/-- At `scale = 0` the whole engine never completes: the first row's column
sweep is stuck, so `generateLayout` returns `none` at every fuel. -/
theorem generateLayout_scale0_none (idGen : ℕ → String) (rf cf : ℕ) :
    generateLayout square10 [] 0 [type3] 1300 idGen rf cf = none := by
  have h0 : generateLayout square10 [] 0 [type3] 1300 idGen rf cf =
      rowLoop square10 [] 0 [type3] idGen 0 10 10 1300 cf rf 0 [] := by
    with_unfolding_all rfl
  rw [h0]
  cases rf with
  | zero => rw [rowLoop_zero, if_pos (by norm_num)]
  | succ m =>
    rw [rowLoop_succ, if_pos (by norm_num)]
    have hcol : colLoop square10 [] 0 [type3] idGen 10 0 cf (0 + 1300 * 0) 0 [] = none := by
      have hst : (0 : ℚ) + 1300 * 0 = 0 := by norm_num
      rw [hst]
      exact colLoop_stuck_scale0 idGen cf 0 []
    simp only [hcol]

/-- At `scale = 0` on the two-point "polygon" nothing ever fits (the
ray-casting test is constantly false), and the search advance `50·0 = 0`
is zero, so the column loop is stuck at `x = 0`. -/
theorem colLoop_stuck_twoPoint (idGen : ℕ → String) :
    ∀ (n : ℕ) (rh : ℚ) (items : List PlacedItem),
      colLoop twoPoint [] 0 [type3] idGen 10 0 n 0 rh items = none := by
  intro n
  induction n with
  | zero =>
    intro rh items
    rw [colLoop_zero, if_pos (by norm_num)]
  | succ m ih =>
    intro rh items
    rw [colLoop_succ, if_pos (by norm_num)]
    simp only [show List.find? (fitsAt twoPoint [] 0 0 0) [type3] = none from by
      with_unfolding_all rfl]
    with_unfolding_all exact ih rh items

/-- On the two-point input with `scale = 0` the engine never completes. -/
theorem generateLayout_twoPoint_scale0_none (idGen : ℕ → String) (rf cf : ℕ) :
    generateLayout twoPoint [] 0 [type3] 1300 idGen rf cf = none := by
  have h0 : generateLayout twoPoint [] 0 [type3] 1300 idGen rf cf =
      rowLoop twoPoint [] 0 [type3] idGen 0 10 10 1300 cf rf 0 [] := by
    with_unfolding_all rfl
  rw [h0]
  cases rf with
  | zero => rw [rowLoop_zero, if_pos (by norm_num)]
  | succ m =>
    rw [rowLoop_succ, if_pos (by norm_num)]
    have hcol : colLoop twoPoint [] 0 [type3] idGen 10 0 cf (0 + 1300 * 0) 0 [] = none := by
      have hst : (0 : ℚ) + 1300 * 0 = 0 := by norm_num
      rw [hst]
      exact colLoop_stuck_twoPoint idGen cf 0 []
    simp only [hcol]

/-- With a strictly positive scale but a `-50`-wide catalog entry, the
placement advance `w·scale + 50·scale` is zero: the column loop re-places
the item at `x = 100` forever. -/
theorem colLoop_stuck_badType (idGen : ℕ → String) :
    ∀ (n : ℕ) (rh : ℚ) (items : List PlacedItem),
      colLoop square1000 [] 1 [badType] idGen 1000 100 n 100 rh items = none := by
  intro n
  induction n with
  | zero =>
    intro rh items
    rw [colLoop_zero, if_pos (by norm_num)]
  | succ m ih =>
    intro rh items
    rw [colLoop_succ, if_pos (by norm_num)]
    simp only [show List.find? (fitsAt square1000 [] 1 100 100) [badType] = some badType from by
      with_unfolding_all rfl]
    with_unfolding_all exact ih _ _

/-- A positive, finite scale does not guarantee termination: with the
`-50`-wide catalog entry the engine never completes on `square1000`. -/
theorem generateLayout_badType_none (idGen : ℕ → String) (rf cf : ℕ) :
    generateLayout square1000 [] 1 [badType] 100 idGen rf cf = none := by
  have h0 : generateLayout square1000 [] 1 [badType] 100 idGen rf cf =
      rowLoop square1000 [] 1 [badType] idGen 0 1000 1000 100 cf rf 100 [] := by
    with_unfolding_all rfl
  rw [h0]
  cases rf with
  | zero => rw [rowLoop_zero, if_pos (by norm_num)]
  | succ m =>
    rw [rowLoop_succ, if_pos (by norm_num)]
    have hcol : colLoop square1000 [] 1 [badType] idGen 1000 100 cf (0 + 100 * 1) 0 [] = none := by
      have hst : (0 : ℚ) + 100 * 1 = 100 := by norm_num
      rw [hst]
      exact colLoop_stuck_badType idGen cf 0 []
    simp only [hcol]

/-! ## Termination of the sweep under sane inputs -/

/-- Column-loop fuel bound: when the scale is positive and every chosen
candidate has nonnegative width, every iteration advances the cursor by at
least `50·scale`, so fuel `n` with `maxX - currentX ≤ n·(50·scale)`
completes the loop. -/
theorem colLoop_terminates (polygon : List Point) (holes : List (List Point)) (scale : ℚ)
    (furnitureTypes : List FurnitureSet) (idGen : ℕ → String) (maxX currentY : ℚ)
    (hscale : 0 < scale)
    (hw : ∀ (x : ℚ) (f : FurnitureSet),
      furnitureTypes.find? (fitsAt polygon holes scale x currentY) = some f →
      0 ≤ f.tableWidth) :
    ∀ (n : ℕ) (currentX : ℚ), maxX - currentX ≤ n * (50 * scale) →
      ∀ (rowHeight : ℚ) (items : List PlacedItem),
        ∃ r, colLoop polygon holes scale furnitureTypes idGen maxX currentY n
            currentX rowHeight items = some r := by
  intro n
  induction n with
  | zero =>
    intro currentX hb rowHeight items
    have hc : ¬ currentX < maxX := by
      simp only [Nat.cast_zero, zero_mul] at hb
      intro hlt
      linarith
    exact ⟨(rowHeight, items), by rw [colLoop_zero, if_neg hc]⟩
  | succ n ih =>
    intro currentX hb rowHeight items
    by_cases hc : currentX < maxX
    · cases hfind : furnitureTypes.find? (fitsAt polygon holes scale currentX currentY) with
      | some fType =>
        have hwf : 0 ≤ fType.tableWidth := hw currentX fType hfind
        have hb' : maxX - (currentX + fType.tableWidth * scale + 50 * scale)
            ≤ n * (50 * scale) := by
          have : (0:ℚ) ≤ fType.tableWidth * scale := mul_nonneg hwf hscale.le
          push_cast [Nat.cast_succ] at hb ⊢
          nlinarith
        obtain ⟨r, hr⟩ := ih _ hb'
          (max rowHeight ((fType.tableDepth + CHAIR_DIMENSIONS.depth) * scale))
          (items ++ [⟨idGen items.length, currentX, currentY, 0, fType⟩])
        exact ⟨r, by rw [colLoop_succ, if_pos hc]; simp only [hfind]; exact hr⟩
      | none =>
        have hb' : maxX - (currentX + 50 * scale) ≤ n * (50 * scale) := by
          push_cast [Nat.cast_succ] at hb ⊢
          nlinarith
        obtain ⟨r, hr⟩ := ih _ hb' rowHeight items
        exact ⟨r, by rw [colLoop_succ, if_pos hc]; simp only [hfind]; exact hr⟩
    · exact ⟨(rowHeight, items), by rw [colLoop_succ, if_neg hc]⟩

/-- Row-loop fuel bound, parametrized by a positive lower bound `ε` on the
row advance. -/
theorem rowLoop_terminates (polygon : List Point) (holes : List (List Point)) (scale : ℚ)
    (furnitureTypes : List FurnitureSet) (idGen : ℕ → String)
    (minX maxX maxY aisleGap : ℚ) (colFuel : ℕ)
    (hcol : ∀ (y rh : ℚ) (items : List PlacedItem),
      ∃ r, colLoop polygon holes scale furnitureTypes idGen maxX y colFuel
          (minX + aisleGap * scale) rh items = some r)
    (ε : ℚ) (hε100 : ε ≤ 100 * scale)
    (hadv : ∀ (y rh' : ℚ) (items items' : List PlacedItem),
      colLoop polygon holes scale furnitureTypes idGen maxX y colFuel
          (minX + aisleGap * scale) 0 items = some (rh', items') →
      0 < rh' → ε ≤ rh' + aisleGap * scale) :
    ∀ (n : ℕ) (currentY : ℚ), maxY - currentY ≤ n * ε →
      ∀ (items : List PlacedItem),
        ∃ l, rowLoop polygon holes scale furnitureTypes idGen minX maxX maxY aisleGap
            colFuel n currentY items = some l := by
  intro n
  induction n with
  | zero =>
    intro currentY hb items
    have hc : ¬ currentY < maxY := by
      simp only [Nat.cast_zero, zero_mul] at hb
      intro hlt
      linarith
    exact ⟨items, by rw [rowLoop_zero, if_neg hc]⟩
  | succ n ih =>
    intro currentY hb items
    by_cases hc : currentY < maxY
    · obtain ⟨⟨rh', items'⟩, hcolr⟩ := hcol currentY 0 items
      by_cases hrh : 0 < rh'
      · have hstep := hadv currentY rh' items items' hcolr hrh
        have hb' : maxY - (currentY + rh' + aisleGap * scale) ≤ n * ε := by
          push_cast [Nat.cast_succ] at hb ⊢
          nlinarith
        obtain ⟨l, hl⟩ := ih _ hb' items'
        exact ⟨l, by
          rw [rowLoop_succ, if_pos hc]
          simp only [hcolr]
          rw [if_pos hrh]
          exact hl⟩
      · have hb' : maxY - (currentY + 100 * scale) ≤ n * ε := by
          push_cast [Nat.cast_succ] at hb ⊢
          nlinarith
        obtain ⟨l, hl⟩ := ih _ hb' items'
        exact ⟨l, by
          rw [rowLoop_succ, if_pos hc]
          simp only [hcolr]
          rw [if_neg hrh]
          exact hl⟩
    · exact ⟨items, by rw [rowLoop_succ, if_neg hc]⟩

/-- The row height of a successful column sweep is the initial one or the
footprint height of some catalog entry. -/
theorem colLoop_rowHeight_inv (polygon : List Point) (holes : List (List Point)) (scale : ℚ)
    (furnitureTypes : List FurnitureSet) (idGen : ℕ → String) (maxX currentY : ℚ) :
    ∀ (fuel : ℕ) (currentX rowHeight : ℚ) (items : List PlacedItem) (rh' : ℚ)
      (items' : List PlacedItem),
      colLoop polygon holes scale furnitureTypes idGen maxX currentY fuel
          currentX rowHeight items = some (rh', items') →
      rh' = rowHeight ∨ ∃ f ∈ furnitureTypes,
        rh' = (f.tableDepth + CHAIR_DIMENSIONS.depth) * scale := by
  intro fuel
  induction fuel with
  | zero =>
    intro currentX rowHeight items rh' items' h
    rw [colLoop_zero] at h
    split at h
    · exact absurd h (by simp)
    · simp only [Option.some.injEq, Prod.mk.injEq] at h
      exact Or.inl h.1.symm
  | succ n ih =>
    intro currentX rowHeight items rh' items' h
    rw [colLoop_succ] at h
    split at h
    · split at h
      next fType hfind =>
        rcases ih _ _ _ _ _ h with hmax | hex
        · rcases max_choice rowHeight ((fType.tableDepth + CHAIR_DIMENSIONS.depth) * scale)
            with hm | hm
          · exact Or.inl (hmax.trans hm)
          · exact Or.inr ⟨fType, List.mem_of_find?_eq_some hfind, hmax.trans hm⟩
        · exact Or.inr hex
      next => exact ih _ _ _ _ _ h
    · simp only [Option.some.injEq, Prod.mk.injEq] at h
      exact Or.inl h.1.symm

theorem rowEps_pos (scale aisleGap : ℚ) (types : List FurnitureSet)
    (hscale : 0 < scale) (hgap : 0 ≤ aisleGap * scale) : 0 < rowEps scale aisleGap types := by
  induction types with
  | nil => unfold rowEps; simp only [List.foldr_nil]; positivity
  | cons f ts ih =>
    unfold rowEps at ih ⊢
    simp only [List.foldr_cons]
    split
    next hpos => exact lt_min (by linarith) ih
    next => exact ih

theorem rowEps_le_base (scale aisleGap : ℚ) (types : List FurnitureSet) :
    rowEps scale aisleGap types ≤ 100 * scale := by
  induction types with
  | nil => unfold rowEps; simp
  | cons f ts ih =>
    unfold rowEps at ih ⊢
    simp only [List.foldr_cons]
    split
    next => exact (min_le_right _ _).trans ih
    next => exact ih

theorem rowEps_le_height (scale aisleGap : ℚ) (types : List FurnitureSet)
    (f : FurnitureSet) (hf : f ∈ types)
    (hpos : 0 < (f.tableDepth + CHAIR_DIMENSIONS.depth) * scale) :
    rowEps scale aisleGap types
      ≤ (f.tableDepth + CHAIR_DIMENSIONS.depth) * scale + aisleGap * scale := by
  induction types with
  | nil => exact absurd hf (List.not_mem_nil f)
  | cons g ts ih =>
    unfold rowEps at ih ⊢
    simp only [List.foldr_cons]
    rcases List.mem_cons.mp hf with rfl | hmem
    · rw [if_pos hpos]
      exact min_le_left _ _
    · split
      next => exact (min_le_right _ _).trans (ih hmem)
      next => exact ih hmem

/-! ## Runs on degenerate polygons place nothing -/

/-- On a polygon with fewer than three vertices no candidate ever fits:
every sample point fails the ray-casting test. -/
theorem fitsAt_short (polygon : List Point) (holes : List (List Point))
    (scale x y : ℚ) (f : FurnitureSet) (hlen : polygon.length < 3) :
    fitsAt polygon holes scale x y f = false := by
  have hp : ∀ c, isPointInPolygon c polygon = false :=
    fun c => isPointInPolygon_short c polygon hlen
  simp [fitsAt, isRectValid, rectSamplePoints, hp]

theorem find?_fitsAt_short (polygon : List Point) (holes : List (List Point))
    (scale x y : ℚ) (furnitureTypes : List FurnitureSet) (hlen : polygon.length < 3) :
    furnitureTypes.find? (fitsAt polygon holes scale x y) = none :=
  List.find?_eq_none.mpr fun f _ => by
    simp [fitsAt_short polygon holes scale x y f hlen]

/-- If no candidate is ever found, a successful column sweep returns its
inputs unchanged. -/
theorem colLoop_no_place (polygon : List Point) (holes : List (List Point)) (scale : ℚ)
    (furnitureTypes : List FurnitureSet) (idGen : ℕ → String) (maxX currentY : ℚ)
    (hnone : ∀ x, furnitureTypes.find? (fitsAt polygon holes scale x currentY) = none) :
    ∀ (fuel : ℕ) (currentX rowHeight : ℚ) (items : List PlacedItem)
      (r : ℚ × List PlacedItem),
      colLoop polygon holes scale furnitureTypes idGen maxX currentY fuel
          currentX rowHeight items = some r →
      r = (rowHeight, items) := by
  intro fuel
  induction fuel with
  | zero =>
    intro currentX rowHeight items r h
    rw [colLoop_zero] at h
    split at h
    · exact absurd h (by simp)
    · exact (Option.some_inj.mp h).symm
  | succ n ih =>
    intro currentX rowHeight items r h
    rw [colLoop_succ] at h
    split at h
    · rw [hnone currentX] at h
      exact ih _ _ _ _ h
    · exact (Option.some_inj.mp h).symm

/-- If no candidate is ever found, a successful sweep returns its input
item list unchanged. -/
theorem rowLoop_no_place (polygon : List Point) (holes : List (List Point)) (scale : ℚ)
    (furnitureTypes : List FurnitureSet) (idGen : ℕ → String)
    (minX maxX maxY aisleGap : ℚ) (colFuel : ℕ)
    (hnone : ∀ x y, furnitureTypes.find? (fitsAt polygon holes scale x y) = none) :
    ∀ (fuel : ℕ) (currentY : ℚ) (items l : List PlacedItem),
      rowLoop polygon holes scale furnitureTypes idGen minX maxX maxY aisleGap colFuel
          fuel currentY items = some l →
      l = items := by
  intro fuel
  induction fuel with
  | zero =>
    intro currentY items l h
    rw [rowLoop_zero] at h
    split at h
    · exact absurd h (by simp)
    · exact (Option.some_inj.mp h).symm
  | succ n ih =>
    intro currentY items l h
    rw [rowLoop_succ] at h
    split at h
    · split at h
      next => exact absurd h (by simp)
      next rowHeight items₁ hcol =>
        have hz := colLoop_no_place polygon holes scale furnitureTypes idGen maxX currentY
          (fun x => hnone x currentY) _ _ _ _ _ hcol
        simp only [Prod.mk.injEq] at hz
        obtain ⟨hrh, hits⟩ := hz
        subst hrh
        subst hits
        split at h
        next hpos => exact absurd hpos (by norm_num)
        next => exact ih _ _ _ h
    · exact (Option.some_inj.mp h).symm

/-! ## The engine terminates with an empty result on degenerate polygons -/

theorem generateLayout_short_empty (points : List Point) (holes : List (List Point))
    (scale aisleGap : ℚ) (furnitureTypes : List FurnitureSet) (idGen : ℕ → String)
    (hlen : points.length < 3) (hscale : 0 < scale) :
    ∃ rf cf, generateLayout points holes scale furnitureTypes aisleGap idGen rf cf
      = some [] := by
  match points with
  | [] => exact ⟨0, 0, rfl⟩
  | p :: ps =>
    have hnone : ∀ x y, furnitureTypes.find? (fitsAt (p :: ps) holes scale x y) = none :=
      fun x y => find?_fitsAt_short (p :: ps) holes scale x y furnitureTypes hlen
    obtain ⟨n₀, hn₀⟩ := exists_nat_ge
      ((((ps.map Point.x).foldl max p.x) - (((ps.map Point.x).foldl min p.x) + aisleGap * scale))
        / (50 * scale))
    have hb₀ : ((ps.map Point.x).foldl max p.x)
        - (((ps.map Point.x).foldl min p.x) + aisleGap * scale) ≤ n₀ * (50 * scale) := by
      rw [div_le_iff₀ (by positivity)] at hn₀
      linarith
    obtain ⟨n₁, hn₁⟩ := exists_nat_ge
      ((((ps.map Point.y).foldl max p.y) - (((ps.map Point.y).foldl min p.y) + aisleGap * scale))
        / (100 * scale))
    have hb₁ : ((ps.map Point.y).foldl max p.y)
        - (((ps.map Point.y).foldl min p.y) + aisleGap * scale) ≤ n₁ * (100 * scale) := by
      rw [div_le_iff₀ (by positivity)] at hn₁
      linarith
    have hcol : ∀ (y rh : ℚ) (items : List PlacedItem),
        ∃ r, colLoop (p :: ps) holes scale furnitureTypes idGen
          ((ps.map Point.x).foldl max p.x) y n₀
          (((ps.map Point.x).foldl min p.x) + aisleGap * scale) rh items = some r :=
      fun y rh items => colLoop_terminates (p :: ps) holes scale furnitureTypes idGen
        _ y hscale (fun x f hf => absurd hf (by simp [hnone])) n₀ _ hb₀ rh items
    obtain ⟨l, hrow⟩ := rowLoop_terminates (p :: ps) holes scale furnitureTypes idGen
      ((ps.map Point.x).foldl min p.x) ((ps.map Point.x).foldl max p.x)
      ((ps.map Point.y).foldl max p.y) aisleGap n₀ hcol
      (100 * scale) le_rfl
      (fun y rh' items items' hc hpos => by
        have hz := colLoop_no_place (p :: ps) holes scale furnitureTypes idGen _ y
          (fun x => hnone x y) _ _ _ _ _ hc
        simp only [Prod.mk.injEq] at hz
        exact absurd (hz.1 ▸ hpos) (by norm_num))
      n₁ _ hb₁ []
    have hempty : l = [] := rowLoop_no_place (p :: ps) holes scale furnitureTypes idGen
      _ _ _ _ _ hnone _ _ _ _ hrow
    exact ⟨n₁, n₀, by rw [show generateLayout (p :: ps) holes scale furnitureTypes aisleGap
      idGen n₁ n₀ = rowLoop (p :: ps) holes scale furnitureTypes idGen
      ((ps.map Point.x).foldl min p.x) ((ps.map Point.x).foldl max p.x)
      ((ps.map Point.y).foldl max p.y) aisleGap n₀ n₁
      (((ps.map Point.y).foldl min p.y) + aisleGap * scale) [] from rfl, hrow, hempty]⟩

/-! ## General termination under a positive scale, nonnegative gap and
nonnegative catalog widths -/

theorem generateLayout_terminates (polygon : List Point) (holes : List (List Point))
    (scale : ℚ) (furnitureTypes : List FurnitureSet) (aisleGap : ℚ) (idGen : ℕ → String)
    (hscale : 0 < scale) (hgap : 0 ≤ aisleGap)
    (hw : ∀ f ∈ furnitureTypes, 0 ≤ f.tableWidth) :
    ∃ rf cf l, generateLayout polygon holes scale furnitureTypes aisleGap idGen rf cf
      = some l := by
  match polygon with
  | [] => exact ⟨0, 0, [], rfl⟩
  | p :: ps =>
    have hgs : 0 ≤ aisleGap * scale := mul_nonneg hgap hscale.le
    obtain ⟨n₀, hn₀⟩ := exists_nat_ge
      ((((ps.map Point.x).foldl max p.x) - (((ps.map Point.x).foldl min p.x) + aisleGap * scale))
        / (50 * scale))
    have hb₀ : ((ps.map Point.x).foldl max p.x)
        - (((ps.map Point.x).foldl min p.x) + aisleGap * scale) ≤ n₀ * (50 * scale) := by
      rw [div_le_iff₀ (by positivity)] at hn₀
      linarith
    have hεpos : 0 < rowEps scale aisleGap furnitureTypes :=
      rowEps_pos scale aisleGap furnitureTypes hscale hgs
    obtain ⟨n₁, hn₁⟩ := exists_nat_ge
      ((((ps.map Point.y).foldl max p.y) - (((ps.map Point.y).foldl min p.y) + aisleGap * scale))
        / rowEps scale aisleGap furnitureTypes)
    have hb₁ : ((ps.map Point.y).foldl max p.y)
        - (((ps.map Point.y).foldl min p.y) + aisleGap * scale)
        ≤ n₁ * rowEps scale aisleGap furnitureTypes := by
      rw [div_le_iff₀ hεpos] at hn₁
      linarith
    have hcol : ∀ (y rh : ℚ) (items : List PlacedItem),
        ∃ r, colLoop (p :: ps) holes scale furnitureTypes idGen
          ((ps.map Point.x).foldl max p.x) y n₀
          (((ps.map Point.x).foldl min p.x) + aisleGap * scale) rh items = some r :=
      fun y rh items => colLoop_terminates (p :: ps) holes scale furnitureTypes idGen
        _ y hscale (fun _ f hf => hw f (List.mem_of_find?_eq_some hf)) n₀ _ hb₀ rh items
    obtain ⟨l, hrow⟩ := rowLoop_terminates (p :: ps) holes scale furnitureTypes idGen
      ((ps.map Point.x).foldl min p.x) ((ps.map Point.x).foldl max p.x)
      ((ps.map Point.y).foldl max p.y) aisleGap n₀ hcol
      (rowEps scale aisleGap furnitureTypes) (rowEps_le_base scale aisleGap furnitureTypes)
      (fun y rh' items items' hc hpos => by
        rcases colLoop_rowHeight_inv (p :: ps) holes scale furnitureTypes idGen _ y
          _ _ _ _ _ _ hc with h0 | ⟨f, hf, heq⟩
        · exact absurd (h0 ▸ hpos) (by norm_num)
        · have := rowEps_le_height scale aisleGap furnitureTypes f hf (heq ▸ hpos)
          rw [heq]
          linarith)
      n₁ _ hb₁ []
    exact ⟨n₁, n₀, l, by rw [show generateLayout (p :: ps) holes scale furnitureTypes aisleGap
      idGen n₁ n₀ = rowLoop (p :: ps) holes scale furnitureTypes idGen
      ((ps.map Point.x).foldl min p.x) ((ps.map Point.x).foldl max p.x)
      ((ps.map Point.y).foldl max p.y) aisleGap n₀ n₁
      (((ps.map Point.y).foldl min p.y) + aisleGap * scale) [] from rfl, hrow]⟩

/-- Scenario B re-run with different fuel budgets (the per-step lemmas are
fuel-polymorphic). -/
theorem run_c2_alt (idGen : ℕ → String) :
    generateLayout square6000 [] 1 [type3] 1300 idGen 21 300 =
    some [⟨idGen 0, 1300, 1300, 0, type3⟩, ⟨idGen 1, 2550, 1300, 0, type3⟩,
      ⟨idGen 2, 3800, 1300, 0, type3⟩, ⟨idGen 3, 1300, 3650, 0, type3⟩,
      ⟨idGen 4, 2550, 3650, 0, type3⟩, ⟨idGen 5, 3800, 3650, 0, type3⟩] := by
  have h0 : generateLayout square6000 [] 1 [type3] 1300 idGen 21 300 =
      rowLoop square6000 [] 1 [type3] idGen 0 6000 6000 1300 300 21 1300 [] := by
    with_unfolding_all rfl
  rw [h0]
  simp only [rstep_c2_r0, rstep_c2_r1, rexit_c2]

/-! ## The rectilinear normalizer is idempotent

The chain partition of a sorted list, its interaction with the value map,
and stability of the partition under the snapping map itself. -/

theorem takeChain_append (t : ℚ) : ∀ (l : List ℚ) (prev : ℚ),
    (takeChain t prev l).1 ++ (takeChain t prev l).2 = l := by
  intro l
  induction l with
  | nil => intro prev; simp [takeChain]
  | cons a as ih =>
    intro prev
    by_cases hc : |a - prev| ≤ t
    · simpa [takeChain, hc] using ih a
    · simp [takeChain, hc]

theorem takeChain_chain (t : ℚ) : ∀ (l : List ℚ) (prev : ℚ),
    List.Chain (fun a b => |b - a| ≤ t) prev (takeChain t prev l).1 := by
  intro l
  induction l with
  | nil => intro prev; simp [takeChain]
  | cons a as ih =>
    intro prev
    by_cases hc : |a - prev| ≤ t
    · simpa [takeChain, hc] using ih a
    · simp [takeChain, hc]

theorem takeChain_rest_far (t : ℚ) : ∀ (l : List ℚ) (prev w : ℚ) (ws : List ℚ),
    (takeChain t prev l).2 = w :: ws →
    t < |w - (takeChain t prev l).1.getLastD prev| := by
  intro l
  induction l with
  | nil => intro prev w ws h; simp [takeChain] at h
  | cons a as ih =>
    intro prev w ws h
    by_cases hc : |a - prev| ≤ t
    · rw [show takeChain t prev (a :: as) = (a :: (takeChain t a as).1, (takeChain t a as).2)
        from by simp [takeChain, hc]] at h ⊢
      rw [List.getLastD_cons]
      exact ih a w ws h
    · rw [show takeChain t prev (a :: as) = ([], a :: as) from by simp [takeChain, hc]] at h ⊢
      obtain ⟨rfl, rfl⟩ : a = w ∧ as = ws := by simpa using h
      simpa using lt_of_not_le hc

theorem takeChain_of_chain (t : ℚ) : ∀ (g : List ℚ) (prev : ℚ) (rest : List ℚ),
    List.Chain (fun a b => |b - a| ≤ t) prev g →
    (∀ w ws, rest = w :: ws → t < |w - g.getLastD prev|) →
    takeChain t prev (g ++ rest) = (g, rest) := by
  intro g
  induction g with
  | nil =>
    intro prev rest _ hfar
    match rest with
    | [] => simp [takeChain]
    | w :: ws =>
      have := hfar w ws rfl
      simp only [List.getLastD_nil] at this
      simp [takeChain, not_le.mpr this]
  | cons a g' ih =>
    intro prev rest hchain hfar
    rw [List.chain_cons] at hchain
    simp only [List.cons_append]
    rw [show takeChain t prev (a :: (g' ++ rest))
        = (a :: (takeChain t a (g' ++ rest)).1, (takeChain t a (g' ++ rest)).2)
      from by simp [takeChain, hchain.1]]
    rw [ih a rest hchain.2 (by
      intro w ws hr
      have := hfar w ws hr
      rwa [List.getLastD_cons] at this)]

theorem chainGroups_flatten (t : ℚ) (l : List ℚ) : (chainGroups t l).flatten = l := by
  induction l using chainGroups.induct t with
  | case1 => simp [chainGroups]
  | case2 v rest next ih =>
    rw [chainGroups]
    simp only [List.flatten_cons]
    rw [ih]
    simpa using takeChain_append t rest v

theorem chainGroups_ne_nil (t : ℚ) (l : List ℚ) : ∀ g ∈ chainGroups t l, g ≠ [] := by
  induction l using chainGroups.induct t with
  | case1 => simp [chainGroups]
  | case2 v rest next ih =>
    rw [chainGroups]
    intro g hg
    rcases List.mem_cons.mp hg with rfl | hmem
    · simp
    · exact ih g hmem

theorem chainGroups_chain (t : ℚ) (l : List ℚ) :
    ∀ g ∈ chainGroups t l, List.Chain' (fun a b => |b - a| ≤ t) g := by
  induction l using chainGroups.induct t with
  | case1 => simp [chainGroups]
  | case2 v rest next ih =>
    rw [chainGroups]
    intro g hg
    rcases List.mem_cons.mp hg with rfl | hmem
    · exact takeChain_chain t rest v
    · exact ih g hmem

theorem chainGroups_eq_of (t : ℚ) : ∀ (Gs : List (List ℚ)),
    (∀ g ∈ Gs, g ≠ []) →
    (∀ g ∈ Gs, List.Chain' (fun a b => |b - a| ≤ t) g) →
    List.Chain' (fun g h => t < |h.headD 0 - g.getLastD 0|) Gs →
    chainGroups t Gs.flatten = Gs := by
  intro Gs
  induction Gs with
  | nil => intro _ _ _; simp [chainGroups]
  | cons g Gs' ih =>
    intro hne hch hbd
    rcases g with _ | ⟨v, gtail⟩
    · exact absurd rfl (hne [] (List.mem_cons_self _ _))
    have hchain : List.Chain (fun a b => |b - a| ≤ t) v gtail :=
      hch (v :: gtail) (List.mem_cons_self _ _)
    have hfar : ∀ w ws, Gs'.flatten = w :: ws → t < |w - gtail.getLastD v| := by
      intro w ws hflat
      rcases Gs' with _ | ⟨g', Gs''⟩
      · simp at hflat
      rcases g' with _ | ⟨u, g'tail⟩
      · exact absurd rfl (hne [] (by simp))
      have hb : t < |(u :: g'tail).headD 0 - (v :: gtail).getLastD 0| :=
        (List.chain'_cons.mp hbd).1
      simp only [List.headD_cons, List.getLastD_cons] at hb
      have : w = u := by
        have := congrArg (fun l => l.headD 0) hflat
        simpa using this.symm
      rw [this]
      exact hb
    show chainGroups t ((v :: gtail) ++ Gs'.flatten) = (v :: gtail) :: Gs'
    rw [List.cons_append, chainGroups]
    rw [takeChain_of_chain t gtail v Gs'.flatten hchain hfar]
    rw [ih (fun g hg => hne g (List.mem_cons_of_mem _ hg))
      (fun g hg => hch g (List.mem_cons_of_mem _ hg)) (List.Chain'.tail hbd)]

theorem getLastD_mem : ∀ (l : List ℚ) (d : ℚ), l ≠ [] → l.getLastD d ∈ l := by
  intro l
  induction l with
  | nil => intro d h; exact absurd rfl h
  | cons a as ih =>
    intro d _
    rw [List.getLastD_cons]
    rcases as with _ | ⟨b, bs⟩
    · simp
    · exact List.mem_cons_of_mem a (ih a (by simp))

theorem sorted_le_getLastD : ∀ (xs : List ℚ) (x : ℚ),
    List.Sorted (fun a b => a ≤ b) (x :: xs) → ∀ a ∈ x :: xs, a ≤ xs.getLastD x := by
  intro xs
  induction xs with
  | nil =>
    intro x _ a ha
    simp only [List.getLastD_nil]
    rcases List.mem_cons.mp ha with rfl | h
    · exact le_refl a
    · simp at h
  | cons y ys ih =>
    intro x hs a ha
    rw [List.getLastD_cons]
    have hxy : x ≤ y := (List.sorted_cons.mp hs).1 y (by simp)
    have htail : List.Sorted (fun a b => a ≤ b) (y :: ys) := (List.sorted_cons.mp hs).2
    rcases List.mem_cons.mp ha with rfl | ha'
    · exact hxy.trans (ih y htail y (by simp))
    · exact ih y htail a ha'

theorem chainGroups_pairwise_sep (t : ℚ) (l : List ℚ) :
    List.Sorted (fun a b => a ≤ b) l →
    (chainGroups t l).Pairwise (fun g h => ∀ a ∈ g, ∀ b ∈ h, a + t < b) := by
  induction l using chainGroups.induct t with
  | case1 => intro _; simp [chainGroups]
  | case2 v rest next ih =>
    intro hs
    rw [chainGroups]
    have hrest : List.Sorted (fun a b => a ≤ b) rest := (List.sorted_cons.mp hs).2
    have hvall : ∀ b ∈ rest, v ≤ b := (List.sorted_cons.mp hs).1
    have htc : next.1 ++ next.2 = rest := takeChain_append t rest v
    have hsorted12 : List.Sorted (fun a b => a ≤ b) (next.1 ++ next.2) := htc.symm ▸ hrest
    obtain ⟨h1sorted, h2sorted, hcross⟩ := List.pairwise_append.mp hsorted12
    refine List.pairwise_cons.mpr ⟨?_, ih h2sorted⟩
    intro h' hh' a ha b hb
    have hbmem : b ∈ next.2 := by
      have hbf : b ∈ (chainGroups t next.2).flatten := List.mem_flatten.mpr ⟨h', hh', hb⟩
      rwa [chainGroups_flatten] at hbf
    rcases hw : next.2 with _ | ⟨w, ws⟩
    · rw [hw] at hbmem; simp at hbmem
    rw [hw] at hbmem
    have hwb : w ≤ b := by
      rcases List.mem_cons.mp hbmem with rfl | hbmem'
      · exact le_refl b
      · have h2s : List.Sorted (fun a b => a ≤ b) (w :: ws) := hw ▸ h2sorted
        exact (List.sorted_cons.mp h2s).1 b hbmem'
    have hfar : t < |w - next.1.getLastD v| := takeChain_rest_far t rest v w ws hw
    have hlast_le_w : next.1.getLastD v ≤ w := by
      by_cases hn1 : next.1 = []
      · rw [hn1]
        simp only [List.getLastD_nil]
        refine hvall w ?_
        rw [← htc, hn1, hw]
        simp
      · have hmem : next.1.getLastD v ∈ next.1 := getLastD_mem _ _ hn1
        refine hcross _ hmem w ?_
        rw [hw]
        simp
    have habs : t < w - next.1.getLastD v := by
      rwa [abs_of_nonneg (by linarith)] at hfar
    have hsorted_v1 : List.Sorted (fun a b => a ≤ b) (v :: next.1) := by
      have hsub : List.Sublist (v :: next.1) (v :: (next.1 ++ next.2)) :=
        List.Sublist.cons₂ v (List.sublist_append_left _ _)
      have hall : List.Sorted (fun a b => a ≤ b) (v :: (next.1 ++ next.2)) := by
        rw [htc]
        exact hs
      exact List.Pairwise.sublist hsub hall
    have ha_le : a ≤ next.1.getLastD v := sorted_le_getLastD next.1 v hsorted_v1 a ha
    linarith

theorem valueMapOf_eq_foldl (Gs : List (List ℚ)) :
    valueMapOf Gs = Gs.foldl (fun m g => vmStep g m) [] := rfl

theorem vmStep_eq (g : List ℚ) : ∀ (m : List (ℚ × ℚ)),
    vmStep g m = (g.map (fun v => (v, groupAvg g))).reverse ++ m := by
  unfold vmStep
  generalize groupAvg g = a
  induction g with
  | nil => intro m; simp
  | cons v g' ih =>
    intro m
    simp only [List.foldl_cons, List.map_cons, List.reverse_cons, List.append_assoc]
    rw [ih]
    simp

theorem mapGet_vmStep_of_not_mem (g : List ℚ) (m : List (ℚ × ℚ)) (v : ℚ) (hv : v ∉ g) :
    mapGet (vmStep g m) v = mapGet m v := by
  rw [vmStep_eq]
  unfold mapGet
  rw [List.find?_append]
  have hnone : (g.map (fun u => (u, groupAvg g))).reverse.find?
      (fun e => decide (e.1 = v)) = none := by
    rw [List.find?_eq_none]
    intro e he
    rw [List.mem_reverse, List.mem_map] at he
    obtain ⟨u, hu, rfl⟩ := he
    simp only [decide_eq_true_eq]
    intro hq
    exact hv (hq ▸ hu)
  rw [hnone, Option.none_or]

theorem find?_map_snd_of_mem (a : ℚ) : ∀ (l : List (ℚ × ℚ)) (p : ℚ × ℚ → Bool),
    (∀ e ∈ l, e.2 = a) → (∃ e ∈ l, p e = true) →
    ((l.find? p).map (fun e => e.2)) = some a := by
  intro l
  induction l with
  | nil =>
    intro p _ hex
    simp at hex
  | cons e l' ih =>
    intro p hall hex
    cases hp : p e with
    | true =>
      rw [List.find?_cons_of_pos l' hp]
      exact congrArg some (hall e (by simp))
    | false =>
      rw [List.find?_cons_of_neg l' (by simp [hp])]
      refine ih p (fun e' he' => hall e' (List.mem_cons_of_mem _ he')) ?_
      obtain ⟨e', he', hpe'⟩ := hex
      rcases List.mem_cons.mp he' with rfl | hmem
      · rw [hp] at hpe'; exact absurd hpe' (by simp)
      · exact ⟨e', hmem, hpe'⟩

theorem mapGet_vmStep_of_mem (g : List ℚ) (m : List (ℚ × ℚ)) (v : ℚ) (hv : v ∈ g) :
    mapGet (vmStep g m) v = some (groupAvg g) := by
  rw [vmStep_eq]
  unfold mapGet
  rw [List.find?_append]
  have hsome := find?_map_snd_of_mem (groupAvg g)
    (g.map (fun u => (u, groupAvg g))).reverse (fun e => decide (e.1 = v))
    (by
      intro e he
      rw [List.mem_reverse, List.mem_map] at he
      obtain ⟨u, _, rfl⟩ := he
      rfl)
    ⟨(v, groupAvg g), by rw [List.mem_reverse, List.mem_map]; exact ⟨v, hv, rfl⟩, by simp⟩
  obtain ⟨e, he, he2⟩ : ∃ e, (g.map (fun u => (u, groupAvg g))).reverse.find?
      (fun e => decide (e.1 = v)) = some e ∧ e.2 = groupAvg g := by
    cases hf : (g.map (fun u => (u, groupAvg g))).reverse.find? (fun e => decide (e.1 = v)) with
    | none => rw [hf] at hsome; simp at hsome
    | some e =>
      rw [hf] at hsome
      exact ⟨e, rfl, Option.some_inj.mp hsome⟩
  rw [he]
  simp [Option.or, he2]

theorem mapGet_foldl_of_not_mem (v : ℚ) : ∀ (Gs : List (List ℚ)) (m : List (ℚ × ℚ)),
    (∀ h ∈ Gs, v ∉ h) →
    mapGet (Gs.foldl (fun m g => vmStep g m) m) v = mapGet m v := by
  intro Gs
  induction Gs with
  | nil => intro m _; rfl
  | cons g Gs' ih =>
    intro m hnot
    simp only [List.foldl_cons]
    rw [ih (vmStep g m) (fun h hh => hnot h (List.mem_cons_of_mem _ hh))]
    exact mapGet_vmStep_of_not_mem g m v (hnot g (List.mem_cons_self _ _))

theorem valueMapOf_lookup (t : ℚ) (ht : 0 ≤ t) (Gs : List (List ℚ))
    (hsep : Gs.Pairwise (fun g h => ∀ a ∈ g, ∀ b ∈ h, a + t < b)) :
    ∀ g ∈ Gs, ∀ v ∈ g, mapGet (valueMapOf Gs) v = some (groupAvg g) := by
  rw [valueMapOf_eq_foldl]
  suffices H : ∀ (Gs' : List (List ℚ)) (m : List (ℚ × ℚ)),
      Gs'.Pairwise (fun g h => ∀ a ∈ g, ∀ b ∈ h, a + t < b) →
      ∀ g ∈ Gs', ∀ v ∈ g, mapGet (Gs'.foldl (fun m g => vmStep g m) m) v = some (groupAvg g) by
    exact H Gs [] hsep
  intro Gs'
  induction Gs' with
  | nil =>
    intro m _ g hg
    simp at hg
  | cons g₀ Gs'' ih =>
    intro m hsep' g hg v hv
    simp only [List.foldl_cons]
    obtain ⟨hhead, htail⟩ := List.pairwise_cons.mp hsep'
    rcases List.mem_cons.mp hg with rfl | hmem
    · have hnot : ∀ h ∈ Gs'', v ∉ h := by
        intro h hh hvh
        have := hhead h hh v hv v hvh
        linarith
      rw [mapGet_foldl_of_not_mem v Gs'' (vmStep g m) hnot]
      exact mapGet_vmStep_of_mem g m v hv
    · exact ih (vmStep g₀ m) htail g hmem v hv

theorem headD_mem : ∀ (l : List ℚ) (d : ℚ), l ≠ [] → l.headD d ∈ l := by
  intro l d h
  rcases l with _ | ⟨a, as⟩
  · exact absurd rfl h
  · simp

theorem getLastD_map_const (l : List ℚ) (m d : ℚ) (h : l ≠ []) :
    (l.map (fun _ => m)).getLastD d = m := by
  induction l with
  | nil => exact absurd rfl h
  | cons a as ih =>
    simp only [List.map_cons, List.getLastD_cons]
    rcases as with _ | ⟨b, bs⟩
    · simp
    · exact ih (by simp)

theorem headD_map_const (l : List ℚ) (m d : ℚ) (h : l ≠ []) :
    (l.map (fun _ => m)).headD d = m := by
  rcases l with _ | ⟨a, as⟩
  · exact absurd rfl h
  · simp

theorem chain_close_map_const (t : ℚ) (ht : 0 ≤ t) (l : List ℚ) (m : ℚ) :
    List.Chain' (fun a b => |b - a| ≤ t) (l.map (fun _ => m)) := by
  induction l with
  | nil => simp
  | cons a as ih =>
    rcases as with _ | ⟨b, bs⟩
    · simp
    · refine List.chain'_cons.mpr ⟨by simpa using ht, ?_⟩
      exact ih

theorem sorted_map_const (l : List ℚ) (m : ℚ) :
    List.Sorted (fun a b => a ≤ b) (l.map (fun _ => m)) := by
  rw [show (fun (_ : ℚ) => m) = Function.const ℚ m from rfl, List.map_const]
  exact List.pairwise_replicate.mpr (Or.inr (le_refl m))

theorem groupAvg_map_const (l : List ℚ) (m : ℚ) (h : l ≠ []) :
    groupAvg (l.map (fun _ => m)) = m := by
  unfold groupAvg
  rw [show (fun (_ : ℚ) => m) = Function.const ℚ m from rfl, List.map_const,
    List.sum_replicate, List.length_replicate, nsmul_eq_mul]
  have hl : (l.length : ℚ) ≠ 0 := by
    simpa using List.length_pos.mpr h |>.ne'
  field_simp

theorem headD_le_groupAvg (l : List ℚ) (hne : l ≠ [])
    (hs : List.Sorted (fun a b => a ≤ b) l) : l.headD 0 ≤ groupAvg l := by
  rcases l with _ | ⟨x, xs⟩
  · exact absurd rfl hne
  have hall : ∀ y ∈ x :: xs, x ≤ y := by
    intro y hy
    rcases List.mem_cons.mp hy with rfl | hy'
    · exact le_refl y
    · exact (List.sorted_cons.mp hs).1 y hy'
  have hsum := List.card_nsmul_le_sum (x :: xs) x hall
  rw [nsmul_eq_mul] at hsum
  have hpos : (0:ℚ) < ((x :: xs).length : ℚ) := by
    simp only [List.length_cons]
    positivity
  unfold groupAvg
  rw [List.headD_cons, le_div_iff₀ hpos]
  linarith

theorem groupAvg_le_getLastD (l : List ℚ) (hne : l ≠ [])
    (hs : List.Sorted (fun a b => a ≤ b) l) : groupAvg l ≤ l.getLastD 0 := by
  rcases l with _ | ⟨x, xs⟩
  · exact absurd rfl hne
  have hall : ∀ y ∈ x :: xs, y ≤ xs.getLastD x := sorted_le_getLastD xs x hs
  have hsum := List.sum_le_card_nsmul (x :: xs) (xs.getLastD x) hall
  rw [nsmul_eq_mul] at hsum
  have hpos : (0:ℚ) < ((x :: xs).length : ℚ) := by
    simp only [List.length_cons]
    positivity
  unfold groupAvg
  rw [List.getLastD_cons, div_le_iff₀ hpos]
  linarith

theorem chainGroups_sorted (t : ℚ) (l : List ℚ) (hs : List.Sorted (fun a b => a ≤ b) l) :
    ∀ g ∈ chainGroups t l, List.Sorted (fun a b => a ≤ b) g := by
  intro g hg
  have hsub : List.Sublist g l := by
    have := List.sublist_flatten_of_mem hg
    rwa [chainGroups_flatten] at this
  exact List.Pairwise.sublist hsub hs

theorem sorted_headD_le (l : List ℚ) (hs : List.Sorted (fun a b => a ≤ b) l) :
    ∀ a ∈ l, l.headD 0 ≤ a := by
  rcases l with _ | ⟨x, xs⟩
  · intro a ha; simp at ha
  · intro a ha
    rw [List.headD_cons]
    rcases List.mem_cons.mp ha with rfl | ha'
    · exact le_refl a
    · exact (List.sorted_cons.mp hs).1 a ha'

theorem sorted_le_getLastD_zero (l : List ℚ) (hs : List.Sorted (fun a b => a ≤ b) l)
    (hne : l ≠ []) : ∀ a ∈ l, a ≤ l.getLastD 0 := by
  rcases l with _ | ⟨x, xs⟩
  · exact absurd rfl hne
  · intro a ha
    rw [List.getLastD_cons]
    exact sorted_le_getLastD xs x hs a ha

theorem snapLookup_of_mem (t : ℚ) (ht : 0 ≤ t) (Gs : List (List ℚ))
    (hsep : Gs.Pairwise (fun g h => ∀ a ∈ g, ∀ b ∈ h, a + t < b))
    (g : List ℚ) (hg : g ∈ Gs) (v : ℚ) (hv : v ∈ g) :
    snapLookup (valueMapOf Gs) v = if groupAvg g = 0 then v else groupAvg g := by
  unfold snapLookup
  rw [valueMapOf_lookup t ht Gs hsep g hg v hv]

theorem snapValues_eq_map (vals : List ℚ) (t : ℚ) :
    snapValues vals t = vals.map (snapFn t (vals.insertionSort (fun a b => a ≤ b))) := rfl

theorem map_snapFn_group (t : ℚ) (ht : 0 ≤ t) (S : List ℚ)
    (hs : List.Sorted (fun a b => a ≤ b) S) (g : List ℚ) (hg : g ∈ chainGroups t S) :
    g.map (snapFn t S) = if groupAvg g = 0 then g else g.map (fun _ => groupAvg g) := by
  have hsep := chainGroups_pairwise_sep t S hs
  by_cases h0 : groupAvg g = 0
  · rw [if_pos h0]
    rw [show g.map (snapFn t S) = g.map (fun v => v) from
      List.map_congr_left (fun v hv => by
        show snapLookup (valueMapOf (chainGroups t S)) v = v
        rw [snapLookup_of_mem t ht _ hsep g hg v hv, if_pos h0])]
    exact List.map_id' g
  · rw [if_neg h0]
    refine List.map_congr_left (fun v hv => ?_)
    show snapLookup (valueMapOf (chainGroups t S)) v = groupAvg g
    rw [snapLookup_of_mem t ht _ hsep g hg v hv, if_neg h0]

theorem mem_map_snapFn_bounds (t : ℚ) (ht : 0 ≤ t) (S : List ℚ)
    (hs : List.Sorted (fun a b => a ≤ b) S) (g : List ℚ) (hg : g ∈ chainGroups t S) :
    ∀ a ∈ g.map (snapFn t S), g.headD 0 ≤ a ∧ a ≤ g.getLastD 0 := by
  intro a ha
  have hne : g ≠ [] := chainGroups_ne_nil t S g hg
  have hgs : List.Sorted (fun a b => a ≤ b) g := chainGroups_sorted t S hs g hg
  rw [map_snapFn_group t ht S hs g hg] at ha
  split at ha
  · exact ⟨sorted_headD_le g hgs a ha, sorted_le_getLastD_zero g hgs hne a ha⟩
  · obtain ⟨u, _, rfl⟩ := List.mem_map.mp ha
    exact ⟨headD_le_groupAvg g hne hgs, groupAvg_le_getLastD g hne hgs⟩

theorem sep_pair_map_snapFn (t : ℚ) (ht : 0 ≤ t) (S : List ℚ)
    (hs : List.Sorted (fun a b => a ≤ b) S) (g h : List ℚ)
    (hg : g ∈ chainGroups t S) (hh : h ∈ chainGroups t S)
    (hsep : ∀ a ∈ g, ∀ b ∈ h, a + t < b) :
    ∀ a ∈ g.map (snapFn t S), ∀ b ∈ h.map (snapFn t S), a + t < b := by
  intro a ha b hb
  have hgne : g ≠ [] := chainGroups_ne_nil t S g hg
  have hhne : h ≠ [] := chainGroups_ne_nil t S h hh
  have hba := (mem_map_snapFn_bounds t ht S hs g hg a ha).2
  have hbb := (mem_map_snapFn_bounds t ht S hs h hh b hb).1
  have hkey : g.getLastD 0 + t < h.headD 0 :=
    hsep (g.getLastD 0) (getLastD_mem g 0 hgne) (h.headD 0) (headD_mem h 0 hhne)
  linarith

theorem chainGroups_map_snapFn (t : ℚ) (ht : 0 ≤ t) (S : List ℚ)
    (hs : List.Sorted (fun a b => a ≤ b) S) :
    chainGroups t (S.map (snapFn t S))
      = (chainGroups t S).map (fun g => g.map (snapFn t S)) := by
  have hsep := chainGroups_pairwise_sep t S hs
  have himg : ((chainGroups t S).map (fun g => g.map (snapFn t S))).flatten
      = S.map (snapFn t S) := by
    rw [← List.map_flatten, chainGroups_flatten]
  rw [← himg]
  apply chainGroups_eq_of
  · intro g' hg'
    obtain ⟨g, hg, rfl⟩ := List.mem_map.mp hg'
    have := chainGroups_ne_nil t S g hg
    simpa using this
  · intro g' hg'
    obtain ⟨g, hg, rfl⟩ := List.mem_map.mp hg'
    rw [map_snapFn_group t ht S hs g hg]
    split
    · exact chainGroups_chain t S g hg
    · exact chain_close_map_const t ht g _
  · have hsep' : (chainGroups t S).Pairwise (fun g h =>
        t < |(h.map (snapFn t S)).headD 0 - (g.map (snapFn t S)).getLastD 0|) := by
      refine hsep.imp_of_mem ?_
      intro g h hg hh hgh
      have hgne : g ≠ [] := chainGroups_ne_nil t S g hg
      have hhne : h ≠ [] := chainGroups_ne_nil t S h hh
      have hgne' : g.map (snapFn t S) ≠ [] := by simpa using hgne
      have hhne' : h.map (snapFn t S) ≠ [] := by simpa using hhne
      have h1 : (g.map (snapFn t S)).getLastD 0 ≤ g.getLastD 0 :=
        (mem_map_snapFn_bounds t ht S hs g hg _ (getLastD_mem _ 0 hgne')).2
      have h2 : h.headD 0 ≤ (h.map (snapFn t S)).headD 0 :=
        (mem_map_snapFn_bounds t ht S hs h hh _ (headD_mem _ 0 hhne')).1
      have hkey : g.getLastD 0 + t < h.headD 0 :=
        hgh (g.getLastD 0) (getLastD_mem g 0 hgne) (h.headD 0) (headD_mem h 0 hhne)
      rw [abs_of_nonneg (by linarith)]
      linarith
    have hchain := List.Pairwise.chain' hsep'
    rw [List.chain'_map]
    exact hchain

theorem sorted_map_snapFn (t : ℚ) (ht : 0 ≤ t) (S : List ℚ)
    (hs : List.Sorted (fun a b => a ≤ b) S) :
    List.Sorted (fun a b => a ≤ b) (S.map (snapFn t S)) := by
  have hsep := chainGroups_pairwise_sep t S hs
  have himg : ((chainGroups t S).map (fun g => g.map (snapFn t S))).flatten
      = S.map (snapFn t S) := by
    rw [← List.map_flatten, chainGroups_flatten]
  rw [← himg]
  refine List.pairwise_flatten.mpr ⟨?_, ?_⟩
  · intro g' hg'
    obtain ⟨g, hg, rfl⟩ := List.mem_map.mp hg'
    rw [map_snapFn_group t ht S hs g hg]
    split
    · exact chainGroups_sorted t S hs g hg
    · exact sorted_map_const g _
  · rw [List.pairwise_map]
    refine hsep.imp_of_mem ?_
    intro g h hg hh hgh a ha b hb
    have := sep_pair_map_snapFn t ht S hs g h hg hh hgh a ha b hb
    linarith

theorem sep_map_snapFn (t : ℚ) (ht : 0 ≤ t) (S : List ℚ)
    (hs : List.Sorted (fun a b => a ≤ b) S) :
    ((chainGroups t S).map (fun g => g.map (snapFn t S))).Pairwise
      (fun g h => ∀ a ∈ g, ∀ b ∈ h, a + t < b) := by
  rw [List.pairwise_map]
  exact (chainGroups_pairwise_sep t S hs).imp_of_mem
    (fun {g h} hg hh hgh => sep_pair_map_snapFn t ht S hs g h hg hh hgh)

theorem snapFn_idem_on (t : ℚ) (ht : 0 ≤ t) (S : List ℚ)
    (hs : List.Sorted (fun a b => a ≤ b) S) (v : ℚ) (hv : v ∈ S) :
    snapFn t (S.map (snapFn t S)) (snapFn t S v) = snapFn t S v := by
  have hsep := chainGroups_pairwise_sep t S hs
  have hsep' := sep_map_snapFn t ht S hs
  obtain ⟨g, hg, hvg⟩ : ∃ g ∈ chainGroups t S, v ∈ g := by
    rw [← chainGroups_flatten t S] at hv
    exact List.mem_flatten.mp hv
  have hφv : snapFn t S v = if groupAvg g = 0 then v else groupAvg g :=
    snapLookup_of_mem t ht _ hsep g hg v hvg
  have hmem' : snapFn t S v ∈ g.map (snapFn t S) := List.mem_map_of_mem _ hvg
  have hg' : g.map (snapFn t S) ∈ (chainGroups t S).map (fun g => g.map (snapFn t S)) :=
    List.mem_map_of_mem _ hg
  have hlookup : snapFn t (S.map (snapFn t S)) (snapFn t S v)
      = if groupAvg (g.map (snapFn t S)) = 0 then snapFn t S v
        else groupAvg (g.map (snapFn t S)) := by
    show snapLookup (valueMapOf (chainGroups t (S.map (snapFn t S)))) (snapFn t S v) = _
    rw [chainGroups_map_snapFn t ht S hs]
    exact snapLookup_of_mem t ht _ hsep' _ hg' _ hmem'
  by_cases h0 : groupAvg g = 0
  · have himg : g.map (snapFn t S) = g := by
      rw [map_snapFn_group t ht S hs g hg, if_pos h0]
    rw [hlookup, himg, if_pos h0]
  · have hne : g ≠ [] := chainGroups_ne_nil t S g hg
    have havg : groupAvg (g.map (snapFn t S)) = groupAvg g := by
      rw [map_snapFn_group t ht S hs g hg, if_neg h0]
      exact groupAvg_map_const g _ hne
    rw [hlookup, havg, if_neg h0, hφv, if_neg h0]

theorem snapValues_idem (vals : List ℚ) (t : ℚ) (ht : 0 ≤ t) :
    snapValues (snapValues vals t) t = snapValues vals t := by
  have hSsorted : List.Sorted (fun a b => a ≤ b)
      (vals.insertionSort (fun a b => a ≤ b)) :=
    List.sorted_insertionSort _ vals
  have hSperm : (vals.insertionSort (fun a b => a ≤ b)).Perm vals :=
    List.perm_insertionSort _ vals
  have hS' : (snapValues vals t).insertionSort (fun a b => a ≤ b)
      = (vals.insertionSort (fun a b => a ≤ b)).map
          (snapFn t (vals.insertionSort (fun a b => a ≤ b))) := by
    haveI : IsAntisymm ℚ (fun a b => a ≤ b) := ⟨fun _ _ => le_antisymm⟩
    apply List.eq_of_perm_of_sorted (r := fun a b => a ≤ b)
    · refine (List.perm_insertionSort _ _).trans ?_
      rw [snapValues_eq_map vals t]
      exact (List.Perm.map _ hSperm).symm
    · exact List.sorted_insertionSort _ _
    · exact sorted_map_snapFn t ht _ hSsorted
  rw [snapValues_eq_map (snapValues vals t) t, hS', snapValues_eq_map vals t,
    List.map_map]
  refine List.map_congr_left (fun v hv => ?_)
  exact snapFn_idem_on t ht _ hSsorted v (hSperm.mem_iff.mpr hv)

theorem snapValues_length (vals : List ℚ) (t : ℚ) :
    (snapValues vals t).length = vals.length := by
  simp [snapValues]

theorem map_x_zipWith_mk : ∀ (as bs : List ℚ), as.length = bs.length →
    (List.zipWith (fun x y => Point.mk x y) as bs).map Point.x = as := by
  intro as
  induction as with
  | nil => intro bs _; simp
  | cons a as' ih =>
    intro bs hlen
    rcases bs with _ | ⟨b, bs'⟩
    · simp at hlen
    · simp only [List.zipWith_cons_cons, List.map_cons]
      rw [ih bs' (by simpa using hlen)]

theorem map_y_zipWith_mk : ∀ (as bs : List ℚ), as.length = bs.length →
    (List.zipWith (fun x y => Point.mk x y) as bs).map Point.y = bs := by
  intro as
  induction as with
  | nil =>
    intro bs hlen
    rw [show bs = [] from by simpa using hlen.symm]
    simp
  | cons a as' ih =>
    intro bs hlen
    rcases bs with _ | ⟨b, bs'⟩
    · simp at hlen
    · simp only [List.zipWith_cons_cons, List.map_cons]
      rw [ih bs' (by simpa using hlen)]

theorem snapToRectilinear_idem (points : List Point) (t : ℚ) (ht : 0 ≤ t) :
    snapToRectilinear (snapToRectilinear points t) t = snapToRectilinear points t := by
  by_cases hlen : points.length < 3
  · have h1 : snapToRectilinear points t = points := by
      unfold snapToRectilinear
      rw [if_pos hlen]
    rw [h1]
    exact h1
  · have hXlen : (snapValues (points.map Point.x) t).length = points.length := by
      rw [snapValues_length, List.length_map]
    have hYlen : (snapValues (points.map Point.y) t).length = points.length := by
      rw [snapValues_length, List.length_map]
    have hunfold : ∀ (q : List Point), ¬ q.length < 3 → snapToRectilinear q t
        = List.zipWith (fun x y => Point.mk x y) (snapValues (q.map Point.x) t)
            (snapValues (q.map Point.y) t) := by
      intro q hq
      unfold snapToRectilinear
      rw [if_neg hq]
    have h1 : snapToRectilinear points t
        = List.zipWith (fun x y => Point.mk x y) (snapValues (points.map Point.x) t)
            (snapValues (points.map Point.y) t) := hunfold points hlen
    have hlen1 : (snapToRectilinear points t).length = points.length := by
      rw [h1, List.length_zipWith, hXlen, hYlen, min_self]
    have hx : (snapToRectilinear points t).map Point.x = snapValues (points.map Point.x) t := by
      rw [h1]
      exact map_x_zipWith_mk _ _ (by rw [hXlen, hYlen])
    have hy : (snapToRectilinear points t).map Point.y = snapValues (points.map Point.y) t := by
      rw [h1]
      exact map_y_zipWith_mk _ _ (by rw [hXlen, hYlen])
    have h2 : snapToRectilinear (snapToRectilinear points t) t
        = List.zipWith (fun x y => Point.mk x y)
            (snapValues ((snapToRectilinear points t).map Point.x) t)
            (snapValues ((snapToRectilinear points t).map Point.y) t) :=
      hunfold (snapToRectilinear points t) (by rw [hlen1]; exact hlen)
    rw [h2, hx, hy, snapValues_idem _ t ht, snapValues_idem _ t ht, ← h1]

/-! ## The claims -/

/-- C1: for every `PlacedItem` in the list returned by `generateLayout`,
the five sample points (four corners and center) of the axis-aligned
footprint rectangle with top-left corner `(x, y)`, width
`tableWidth·scale` and height `(tableDepth + 600)·scale` (600 mm is the
chair depth) are inside the main polygon according to the ray-casting test
and outside every hole. -/
theorem C1_containment_postcondition (polygon : List Point) (holes : List (List Point))
    (scale : ℚ) (furnitureTypes : List FurnitureSet) (aisleGap : ℚ) (idGen : ℕ → String)
    (rowFuel colFuel : ℕ) (items : List PlacedItem)
    (h : generateLayout polygon holes scale furnitureTypes aisleGap idGen rowFuel colFuel
        = some items) :
    ∀ it ∈ items, ∀ c ∈ rectSamplePoints it.x it.y (it.type.tableWidth * scale)
        ((it.type.tableDepth + 600) * scale),
      isPointInPolygon c polygon = true ∧ ∀ hole ∈ holes, isPointInPolygon c hole = false :=
  generateLayout_mem_admissible polygon holes scale furnitureTypes aisleGap idGen
    rowFuel colFuel items h

/-- Witness for C1 at the `3500×2700` room, standard gap: the single placed
item's top-left footprint corner tests inside the room. -/
theorem C1_witness : isPointInPolygon ⟨1300, 1300⟩ box3500 = true :=
  (C1_containment_postcondition box3500 [] 1 [type3] 1300 idGen0 20 300 _ (run_bst idGen0)
      ⟨idGen0 0, 1300, 1300, 0, type3⟩ (List.mem_singleton.mpr rfl)
      ⟨1300, 1300⟩ (List.mem_cons_self _ _)).1

/-- C2: on the `6000×6000` square with no holes, scale 1 px/mm, the single
`1200×450` catalog entry and aisle gap 1300 mm, `generateLayout` returns
exactly 6 items, 2 rows of 3, x-cursors 1300/2550/3800, y-cursors
1300/3650, in row-major order; and every completing fuel budget returns
that same list. -/
theorem C2_scenarioB (idGen : ℕ → String) :
    generateLayout square6000 [] 1 [type3] 1300 idGen 20 300 =
      some [⟨idGen 0, 1300, 1300, 0, type3⟩, ⟨idGen 1, 2550, 1300, 0, type3⟩,
        ⟨idGen 2, 3800, 1300, 0, type3⟩, ⟨idGen 3, 1300, 3650, 0, type3⟩,
        ⟨idGen 4, 2550, 3650, 0, type3⟩, ⟨idGen 5, 3800, 3650, 0, type3⟩] ∧
    ∀ (rf cf : ℕ) (l : List PlacedItem),
      generateLayout square6000 [] 1 [type3] 1300 idGen rf cf = some l →
      l = [⟨idGen 0, 1300, 1300, 0, type3⟩, ⟨idGen 1, 2550, 1300, 0, type3⟩,
        ⟨idGen 2, 3800, 1300, 0, type3⟩, ⟨idGen 3, 1300, 3650, 0, type3⟩,
        ⟨idGen 4, 2550, 3650, 0, type3⟩, ⟨idGen 5, 3800, 3650, 0, type3⟩] :=
  ⟨run_c2 idGen, fun rf cf l h =>
    generateLayout_deterministic square6000 [] 1 [type3] 1300 idGen rf cf 20 300 l _
      h (run_c2 idGen)⟩

/-- C3: the code does *not* reject a non-positive scale before the sweep —
at `scale = 0` on `square10` the zero cursor advance makes the column loop
repeat its state forever, so the fueled engine returns `none` (no result)
at every fuel, for every identifier generator.  This confirms the claim's
required guard is absent from the code (the spec flags exactly this as a
defect to fix). -/
theorem C3_zero_scale_not_rejected (idGen : ℕ → String) (rf cf : ℕ) :
    generateLayout square10 [] 0 [type3] 1300 idGen rf cf = none :=
  generateLayout_scale0_none idGen rf cf

/-- C4 (code bug): on the input points `(-10,0), (10,1), (0,2)` with
threshold 20, the x-values form the single chain `[-10, 0, 10]` whose
arithmetic mean is `0` — but the returned x-coordinates are the *raw*
values `-10, 10, 0`, not the mean: the lookup `valueMap.get(v) || v`
treats the stored mean `0` as falsy (JavaScript `||`) and falls back to
the input value, contradicting the claimed mean semantics (and the code's
own comment "Map original value to group average").  The y-values snap to
their chain mean `1` as claimed. -/
theorem C4_zero_mean_not_snapped :
    snapToRectilinear [⟨-10, 0⟩, ⟨10, 1⟩, ⟨0, 2⟩] 20 = [⟨-10, 1⟩, ⟨10, 1⟩, ⟨0, 1⟩] ∧
    chainGroups 20 (List.insertionSort (fun a b => a ≤ b) [-10, 10, 0]) = [[-10, 0, 10]] ∧
    groupAvg [-10, 0, 10] = 0 := by
  refine ⟨?_, ?_, ?_⟩
  · norm_num [snapToRectilinear, snapValues, chainGroups, takeChain, valueMapOf, mapGet,
      snapLookup, groupAvg, List.insertionSort, List.orderedInsert, List.foldl, List.find?,
      List.zipWith, List.map]
  · norm_num [chainGroups, takeChain, List.insertionSort, List.orderedInsert]
  · norm_num [groupAvg]

/-- C5 (counterexample): the claim quantifies over *every* input with fewer
than 3 points, but at `scale = 0` on the two-point input the engine never
returns at all (the search advance `50·scale` is zero), so it does not
return an empty placement list. -/
theorem C5_counterexample :
    twoPoint.length < 3 ∧
      ¬ ∃ rf cf l, generateLayout twoPoint [] 0 [type3] 1300 idGen0 rf cf = some l :=
  ⟨by decide, fun ⟨rf, cf, _, h⟩ => by
    rw [generateLayout_twoPoint_scale0_none idGen0 rf cf] at h
    exact Option.noConfusion h⟩

/-- C5 (amended): for every input with fewer than 3 points *and a strictly
positive scale*, `snapToRectilinear` returns the input unchanged for every
threshold, and `generateLayout` terminates with the empty placement list. -/
theorem C5_amended (points : List Point) (holes : List (List Point))
    (threshold scale aisleGap : ℚ) (furnitureTypes : List FurnitureSet)
    (idGen : ℕ → String) (hlen : points.length < 3) (hscale : 0 < scale) :
    snapToRectilinear points threshold = points ∧
      ∃ rf cf, generateLayout points holes scale furnitureTypes aisleGap idGen rf cf
        = some [] :=
  ⟨by simp [snapToRectilinear, hlen],
    generateLayout_short_empty points holes scale aisleGap furnitureTypes idGen hlen hscale⟩

/-- Witness for the amended C5 at the two-point input with scale 1. -/
theorem C5_witness :
    snapToRectilinear twoPoint 20 = twoPoint ∧
      ∃ rf cf, generateLayout twoPoint [] 1 [type3] 1300 idGen0 rf cf = some [] :=
  C5_amended twoPoint [] 20 1 1300 [type3] idGen0 (by decide) (by norm_num)

/-- C6 (counterexample): a strictly positive, finite scale and finite
polygon coordinates do not make `generateLayout` terminate: with a catalog
entry of width `-50` the placement advance `w·scale + 50·scale` is zero at
`scale = 1`, and the engine returns no result at any fuel. -/
theorem C6_counterexample :
    (0 : ℚ) < 1 ∧
      ¬ ∃ rf cf l, generateLayout square1000 [] 1 [badType] 100 idGen0 rf cf = some l :=
  ⟨by norm_num, fun ⟨rf, cf, _, h⟩ => by
    rw [generateLayout_badType_none idGen0 rf cf] at h
    exact Option.noConfusion h⟩

/-- C6 (amended): with a strictly positive scale, a nonnegative aisle gap
and a catalog whose entries all have nonnegative table width, the sweep
completes in a bounded number of iterations (some fuel returns a result). -/
theorem C6_amended (polygon : List Point) (holes : List (List Point)) (scale : ℚ)
    (furnitureTypes : List FurnitureSet) (aisleGap : ℚ) (idGen : ℕ → String)
    (hscale : 0 < scale) (hgap : 0 ≤ aisleGap)
    (hw : ∀ f ∈ furnitureTypes, 0 ≤ f.tableWidth) :
    ∃ rf cf l, generateLayout polygon holes scale furnitureTypes aisleGap idGen rf cf
      = some l :=
  generateLayout_terminates polygon holes scale furnitureTypes aisleGap idGen
    hscale hgap hw

/-- Witness for the amended C6 on the `6000×6000` square. -/
theorem C6_witness :
    ∃ rf cf l, generateLayout square6000 [] 1 [type3] 1300 idGen0 rf cf = some l :=
  C6_amended square6000 [] 1 [type3] 1300 idGen0 (by norm_num) (by norm_num)
    (fun f hf => by rcases List.mem_singleton.mp hf with rfl; norm_num [type3])

/-- C7: applying `snapToRectilinear` twice gives the same result as applying
it once, for every point list and every threshold `t ≥ 0`. -/
theorem C7_snap_idempotent (points : List Point) (t : ℚ) (ht : 0 ≤ t) :
    snapToRectilinear (snapToRectilinear points t) t = snapToRectilinear points t :=
  snapToRectilinear_idem points t ht

/-- Witness for C7 at a concrete hand-drawn quadrilateral and the default
threshold 20. -/
theorem C7_witness :
    snapToRectilinear (snapToRectilinear [⟨0, 3⟩, ⟨19, 40⟩, ⟨35, 90⟩, ⟨100, 95⟩] 20) 20
      = snapToRectilinear [⟨0, 3⟩, ⟨19, 40⟩, ⟨35, 90⟩, ⟨100, 95⟩] 20 :=
  C7_snap_idempotent [⟨0, 3⟩, ⟨19, 40⟩, ⟨35, 90⟩, ⟨100, 95⟩] 20 (by norm_num)

/-- C8 (counterexample): aisle-gap monotonicity fails on the T-shaped room:
the tight pattern's gap (1000 mm) yields 1 item while the standard
pattern's gap (1300 mm) yields 2 — the tight count is *smaller*. -/
theorem C8_counterexample :
    ∃ l₁ l₂,
      generateLayout tRoom [] 1 [type3] (PATTERN_CONFIG .cramped).aisleGap idGen0 20 300
        = some l₁ ∧
      generateLayout tRoom [] 1 [type3] (PATTERN_CONFIG .standard).aisleGap idGen0 20 300
        = some l₂ ∧
      l₁.length < l₂.length :=
  ⟨_, _, run_tcr idGen0, run_tst idGen0, by decide⟩

/-- C8 (amended): the monotonicity does not hold for every polygon (see the
counterexample); on the concrete `3500×2700` rectangular room with the
`1200×450` catalog at scale 1, the placed-item counts are monotone:
tight 2 ≥ standard 1 ≥ generous 1. -/
theorem C8_amended :
    ∃ l₁ l₂ l₃,
      generateLayout box3500 [] 1 [type3] (PATTERN_CONFIG .cramped).aisleGap idGen0 20 300
        = some l₁ ∧
      generateLayout box3500 [] 1 [type3] (PATTERN_CONFIG .standard).aisleGap idGen0 20 300
        = some l₂ ∧
      generateLayout box3500 [] 1 [type3] (PATTERN_CONFIG .spacious).aisleGap idGen0 20 300
        = some l₃ ∧
      l₂.length ≤ l₁.length ∧ l₃.length ≤ l₂.length :=
  ⟨_, _, _, run_bcr idGen0, run_bst idGen0, run_bsp idGen0, by decide, by decide⟩

/-- C9: two calls of `generateLayout` with identical inputs — including the
identifier sequence `idGen` — produce identical output lists, regardless of
which fuel budgets let them complete. -/
theorem C9_determinism (polygon : List Point) (holes : List (List Point)) (scale : ℚ)
    (furnitureTypes : List FurnitureSet) (aisleGap : ℚ) (idGen : ℕ → String)
    (rowFuel colFuel rowFuel' colFuel' : ℕ) (l l' : List PlacedItem)
    (h : generateLayout polygon holes scale furnitureTypes aisleGap idGen rowFuel colFuel
        = some l)
    (h' : generateLayout polygon holes scale furnitureTypes aisleGap idGen rowFuel' colFuel'
        = some l') : l = l' :=
  generateLayout_deterministic polygon holes scale furnitureTypes aisleGap idGen
    rowFuel colFuel rowFuel' colFuel' l l' h h'

/-- Witness for C9: scenario B run at two different fuel budgets gives the
same 6-item list. -/
theorem C9_witness :
    [(⟨idGen0 0, 1300, 1300, 0, type3⟩ : PlacedItem), ⟨idGen0 1, 2550, 1300, 0, type3⟩,
      ⟨idGen0 2, 3800, 1300, 0, type3⟩, ⟨idGen0 3, 1300, 3650, 0, type3⟩,
      ⟨idGen0 4, 2550, 3650, 0, type3⟩, ⟨idGen0 5, 3800, 3650, 0, type3⟩] =
    [(⟨idGen0 0, 1300, 1300, 0, type3⟩ : PlacedItem), ⟨idGen0 1, 2550, 1300, 0, type3⟩,
      ⟨idGen0 2, 3800, 1300, 0, type3⟩, ⟨idGen0 3, 1300, 3650, 0, type3⟩,
      ⟨idGen0 4, 2550, 3650, 0, type3⟩, ⟨idGen0 5, 3800, 3650, 0, type3⟩] :=
  C9_determinism square6000 [] 1 [type3] 1300 idGen0 20 300 21 300 _ _
    (run_c2 idGen0) (run_c2_alt idGen0)

/-- C10: the ray-casting test answers `false` for every point and every
vertex list with fewer than three vertices: with zero or one vertex no
crossing is counted, and with two vertices the two degenerate edges give
the same answer, so the parity is even. -/
theorem C10_degenerate_polygon (p : Point) (vs : List Point) (h : vs.length < 3) :
    isPointInPolygon p vs = false :=
  isPointInPolygon_short p vs h

/-- Witness for C10 at a two-point vertex list. -/
theorem C10_witness : isPointInPolygon ⟨1, 1⟩ twoPoint = false :=
  C10_degenerate_polygon ⟨1, 1⟩ twoPoint (by decide)

end Adobaru
